import Mathlib

/-!
Site metrics export (`promunifi/site.go`)

A shallow embedding of `descSite`, `exportSites` and `exportSite` together
with the properties of the descriptor names, of the per-subsystem selection
matrix and of the dispatch over the sites of a report.

Conventions of the embedding

* Go's `float64` is a type parameter `F` carrying its own division and the
  literal `1000`; every structural result therefore holds for any carrier.
  What the division does to a number is settled on `Float64`, IEEE 754
  binary64 with rounding to nearest, ties to even; the inputs over `ℚ` only
  serve where no arithmetic is looked at.
* `r.send` mutates the report; here the report is passed explicitly and the
  sink is the list of batches handed to `send`, oldest first.
* The `for _, h := range s.Health` loop is a left fold of its body
  (`exportHealth`) over the health records.
* A `go func() {...}()` statement is recorded as the effect of the function's
  body on the report; `exportSites` returns the list of the goroutines it has
  started next to the report.
-/

namespace Promunifi

/-! ## Constants -/

def subsystemLAN : String := "lan"
def subsystemVPN : String := "vpn"
def subsystemWWW : String := "www"
def subsystemWLAN : String := "wlan"
def subsystemWAN : String := "wan"

/-! ## Library types used by the file -/

/-- Value kind of a sample, `prometheus.ValueType`. -/
inductive ValueType where
  | CounterValue
  | GaugeValue
  | UntypedValue
  deriving DecidableEq, Repr

/-- Result of `prometheus.NewDesc(fqName, help, variableLabels, constLabels)`. -/
structure Desc where
  fqName : String
  help : String
  variableLabels : List String
  constLabels : List (String × String)
  deriving DecidableEq, Repr

/-- The call `prometheus.NewDesc(fqName, help, variableLabels, nil)`. -/
def NewDesc (fqName help : String) (variableLabels : List String) : Desc :=
  { fqName := fqName, help := help, variableLabels := variableLabels, constLabels := [] }

/-- Numeric field of the controller API, `unifi.FlexInt`: the number and the
text it was parsed from. -/
structure FlexInt (F : Type) where
  Val : F
  Txt : String
  deriving DecidableEq, Repr

/-- One entry of `unifi.Site.Health`, restricted to the fields `exportSite`
reads. -/
structure Health (F : Type) where
  Subsystem : String
  Status : String
  NumUser : FlexInt F
  NumGuest : FlexInt F
  NumIot : FlexInt F
  TxBytesR : FlexInt F
  RxBytesR : FlexInt F
  NumAp : FlexInt F
  NumAdopted : FlexInt F
  NumDisabled : FlexInt F
  NumDisconnected : FlexInt F
  NumPending : FlexInt F
  NumGw : FlexInt F
  NumSw : FlexInt F
  NumSta : FlexInt F
  Latency : FlexInt F
  Drops : FlexInt F
  XputUp : FlexInt F
  XputDown : FlexInt F
  SpeedtestPing : FlexInt F
  RemoteUserNumActive : FlexInt F
  RemoteUserNumInactive : FlexInt F
  RemoteUserRxBytes : FlexInt F
  RemoteUserTxBytes : FlexInt F
  RemoteUserRxPackets : FlexInt F
  RemoteUserTxPackets : FlexInt F
  deriving DecidableEq, Repr

/-- The type `unifi.Site`, restricted to the fields `exportSite` reads. -/
structure Site (F : Type) where
  Name : String
  Desc : String
  SiteName : String
  Health : List (Health F)
  deriving DecidableEq, Repr

/-! ## Types of the package -/

/-- The `site` struct: one descriptor per site-level metric. -/
structure site where
  NumUser : Desc
  NumGuest : Desc
  NumIot : Desc
  TxBytesR : Desc
  RxBytesR : Desc
  NumAp : Desc
  NumAdopted : Desc
  NumDisabled : Desc
  NumDisconnected : Desc
  NumPending : Desc
  NumGw : Desc
  NumSw : Desc
  NumSta : Desc
  Latency : Desc
  Drops : Desc
  Uptime : Desc
  XputUp : Desc
  XputDown : Desc
  SpeedtestPing : Desc
  RemoteUserNumActive : Desc
  RemoteUserNumInactive : Desc
  RemoteUserRxBytes : Desc
  RemoteUserTxBytes : Desc
  RemoteUserRxPackets : Desc
  RemoteUserTxPackets : Desc
  deriving DecidableEq, Repr

/-- The part of `unifiCollector` that `exportSite` reads. -/
structure unifiCollector where
  Site : site
  deriving DecidableEq, Repr

/-- Dynamic value stored in the `interface{}` slot of a sample: `exportSite`
stores either a whole `unifi.FlexInt` or a bare `float64`. -/
inductive Value (F : Type) where
  | flexInt (v : FlexInt F)
  | float64 (x : F)
  deriving DecidableEq, Repr

/-- One sample, `metricExports`: descriptor, value kind, value, label values. -/
structure metricExports (F : Type) where
  Desc : Desc
  ValueType : ValueType
  Value : Value F
  Labels : List String
  deriving DecidableEq, Repr

/-- The type `Metrics`, restricted to its site collection. -/
structure Metrics (F : Type) where
  Sites : List (Site F)
  deriving DecidableEq, Repr

/-- The `Report` handed to the exporters: the collected metrics (absent when
`nil`), the wait-group counter and the sink that `send` writes to. -/
structure Report (F : Type) where
  Metrics : Option (Metrics F)
  wg : Nat
  sink : List (List (metricExports F))
  deriving DecidableEq, Repr

/-- Modelled from the spec: the method `Report.send` is not part of the
source file.  The sample emitter "accepts a list of (descriptor, value-kind,
raw value, label tuple) and writes each to the output sink unconditionally";
the batch is appended to the sink as it was handed over. -/
def Report.send {F : Type} (r : Report F) (m : List (metricExports F)) : Report F :=
  { r with sink := r.sink ++ [m] }

/-! ## `descSite` -/

def descSite (ns : String) : site :=
  let ns := ns ++ "_site_"
  let ns := if ns = "_site_" then "site_" else ns
  let labels := ["subsystem", "status", "name", "desc", "site_name"]
  { NumUser := NewDesc (ns ++ "num_user") "Number of Users" labels
    NumGuest := NewDesc (ns ++ "num_guest") "Number of Guests" labels
    NumIot := NewDesc (ns ++ "num_iot") "Number of IoT Devices" labels
    TxBytesR := NewDesc (ns ++ "transmit_rate_bytes") "Bytes Transmit Rate" labels
    RxBytesR := NewDesc (ns ++ "receive_rate_bytes") "Bytes Receive Rate" labels
    NumAp := NewDesc (ns ++ "num_ap") "Access Point Count" labels
    NumAdopted := NewDesc (ns ++ "num_adopted") "Adoption Count" labels
    NumDisabled := NewDesc (ns ++ "num_disabled") "Disabled Count" labels
    NumDisconnected := NewDesc (ns ++ "num_disconnected") "Disconnected Count" labels
    NumPending := NewDesc (ns ++ "num_pending") "Pending Count" labels
    NumGw := NewDesc (ns ++ "num_gateways") "Gateway Count" labels
    NumSw := NewDesc (ns ++ "num_switches") "Switch Count" labels
    NumSta := NewDesc (ns ++ "num_stations") "Station Count" labels
    Latency := NewDesc (ns ++ "latency_seconds") "Latency" labels
    Uptime := NewDesc (ns ++ "uptime_seconds") "Uptime" labels
    Drops := NewDesc (ns ++ "intenet_drops_total") "Internet (WAN) Disconnections" labels
    XputUp := NewDesc (ns ++ "xput_up_rate") "Speedtest Upload" labels
    XputDown := NewDesc (ns ++ "xput_down_rate") "Speedtest Download" labels
    SpeedtestPing := NewDesc (ns ++ "speedtest_ping") "Speedtest Ping" labels
    RemoteUserNumActive := NewDesc (ns ++ "num_remote_user_active") "Remote Users Active" labels
    RemoteUserNumInactive :=
      NewDesc (ns ++ "num_remote_user_inactive") "Remote Users Inactive" labels
    RemoteUserRxBytes :=
      NewDesc (ns ++ "remote_user_receive_bytes_total") "Remote Users Receive Bytes" labels
    RemoteUserTxBytes :=
      NewDesc (ns ++ "remote_user_transmit_bytes_total") "Remote Users Transmit Bytes" labels
    RemoteUserRxPackets :=
      NewDesc (ns ++ "remote_user_receive_packets_total") "Remote Users Receive Packets" labels
    RemoteUserTxPackets :=
      NewDesc (ns ++ "remote_user_transmit_packets_total") "Remote Users Transmit Packets" labels }

/-! ## `exportSite` -/

section Export

variable {F : Type} [Div F] [OfNat F 1000]

/-- Body of the loop of `exportSite` for one health record `h`; `labels` is
the site's `[Name, Desc, SiteName]`. -/
def exportHealth (u : unifiCollector) (labels : List String) (r : Report F) (h : Health F) :
    Report F :=
  let l := [h.Subsystem, h.Status] ++ labels
  let r :=
    if h.Subsystem ≠ subsystemVPN then
      r.send [
        ⟨u.Site.TxBytesR, .GaugeValue, .flexInt h.TxBytesR, l⟩,
        ⟨u.Site.RxBytesR, .GaugeValue, .flexInt h.RxBytesR, l⟩]
    else
      r.send [
        ⟨u.Site.RemoteUserNumActive, .GaugeValue, .flexInt h.RemoteUserNumActive, l⟩,
        ⟨u.Site.RemoteUserNumInactive, .GaugeValue, .flexInt h.RemoteUserNumInactive, l⟩,
        ⟨u.Site.RemoteUserRxBytes, .CounterValue, .flexInt h.RemoteUserRxBytes, l⟩,
        ⟨u.Site.RemoteUserTxBytes, .CounterValue, .flexInt h.RemoteUserTxBytes, l⟩,
        ⟨u.Site.RemoteUserRxPackets, .CounterValue, .flexInt h.RemoteUserRxPackets, l⟩,
        ⟨u.Site.RemoteUserTxPackets, .CounterValue, .flexInt h.RemoteUserTxPackets, l⟩]
  let r :=
    if h.Subsystem = subsystemWWW then
      r.send [
        ⟨u.Site.Uptime, .GaugeValue, .flexInt h.Latency, l⟩,
        ⟨u.Site.Latency, .GaugeValue, .float64 (h.Latency.Val / 1000), l⟩,
        ⟨u.Site.XputUp, .GaugeValue, .flexInt h.XputUp, l⟩,
        ⟨u.Site.XputDown, .GaugeValue, .flexInt h.XputDown, l⟩,
        ⟨u.Site.SpeedtestPing, .GaugeValue, .flexInt h.SpeedtestPing, l⟩,
        ⟨u.Site.Drops, .CounterValue, .flexInt h.Drops, l⟩]
    else r
  if h.Subsystem = subsystemLAN ∨ h.Subsystem = subsystemWLAN ∨ h.Subsystem = subsystemWAN then
    let r := r.send [
      ⟨u.Site.NumAdopted, .GaugeValue, .flexInt h.NumAdopted, l⟩,
      ⟨u.Site.NumDisconnected, .GaugeValue, .flexInt h.NumDisconnected, l⟩,
      ⟨u.Site.NumPending, .GaugeValue, .flexInt h.NumPending, l⟩]
    let r :=
      if h.Subsystem = subsystemLAN ∨ h.Subsystem = subsystemWLAN then
        r.send [
          ⟨u.Site.NumUser, .GaugeValue, .flexInt h.NumUser, l⟩,
          ⟨u.Site.NumGuest, .GaugeValue, .flexInt h.NumGuest, l⟩,
          ⟨u.Site.NumIot, .GaugeValue, .flexInt h.NumIot, l⟩]
      else r
    let r :=
      if h.Subsystem = subsystemWLAN then
        r.send [
          ⟨u.Site.NumAp, .GaugeValue, .flexInt h.NumAp, l⟩,
          ⟨u.Site.NumDisabled, .GaugeValue, .flexInt h.NumDisabled, l⟩]
      else r
    let r :=
      if h.Subsystem = subsystemWAN then
        r.send [
          ⟨u.Site.NumGw, .GaugeValue, .flexInt h.NumGw, l⟩,
          ⟨u.Site.NumSta, .GaugeValue, .flexInt h.NumSta, l⟩]
      else r
    if h.Subsystem = subsystemLAN then
      r.send [⟨u.Site.NumSw, .GaugeValue, .flexInt h.NumSw, l⟩]
    else r
  else r

/-- The method `exportSite`: one pass over the health records of `s`. -/
def exportSite (u : unifiCollector) (r : Report F) (s : Site F) : Report F :=
  let labels := [s.Name, s.Desc, s.SiteName]
  s.Health.foldl (exportHealth u labels) r

/-- The method `exportSites`.  The result is the report as it stands when the
call returns, together with the goroutines the call has started, each given
as the effect of its whole body on the report.  The body ranges over
`r.Metrics.Sites`, which the guard has found present, and `defer r.wg.Done()`
takes effect after the loop. -/
def exportSites (u : unifiCollector) (r : Report F) :
    Report F × List (Report F → Report F) :=
  match r.Metrics with
  | none => (r, [])
  | some m =>
    if m.Sites.length < 1 then (r, [])
    else
      let r := { r with wg := r.wg + 1 }
      (r, [fun r =>
        let r := m.Sites.foldl (exportSite u) r
        { r with wg := r.wg - 1 }])

/-- The report once the goroutines started by a call have all run to
completion, in the order they were started. -/
def completed (p : Report F × List (Report F → Report F)) : Report F :=
  p.2.foldl (fun r g => g r) p.1

end Export

/-! ## Batches sent for one record, and sample inputs -/

/-- The number a sample value stands for: the `Val` of a `unifi.FlexInt`, or
the `float64` itself. -/
def Value.num {F : Type} : Value F → F
  | .flexInt v => v.Val
  | .float64 x => x

/-- Every descriptor of a `site`, one per field, in the order of the struct. -/
def site.all (d : site) : List Desc :=
  [d.NumUser, d.NumGuest, d.NumIot, d.TxBytesR, d.RxBytesR, d.NumAp, d.NumAdopted,
   d.NumDisabled, d.NumDisconnected, d.NumPending, d.NumGw, d.NumSw, d.NumSta, d.Latency,
   d.Drops, d.Uptime, d.XputUp, d.XputDown, d.SpeedtestPing, d.RemoteUserNumActive,
   d.RemoteUserNumInactive, d.RemoteUserRxBytes, d.RemoteUserTxBytes, d.RemoteUserRxPackets,
   d.RemoteUserTxPackets]

/-- A report with nothing collected, a wait group at rest and an empty sink. -/
def emptyReport {F : Type} : Report F :=
  { Metrics := none, wg := 0, sink := [] }

/-- The batches the loop body sends for `h`, observed on an empty sink. -/
def healthBatches {F : Type} [Div F] [OfNat F 1000] (u : unifiCollector) (labels : List String)
    (h : Health F) : List (List (metricExports F)) :=
  (exportHealth u labels { Metrics := none, wg := 0, sink := [] } h).sink

/-- A health record over `ℚ` with the given subsystem tag and pairwise
different field values. -/
def sampleHealth (subsystem : String) : Health ℚ :=
  { Subsystem := subsystem
    Status := "ok"
    NumUser := ⟨1, "1"⟩
    NumGuest := ⟨2, "2"⟩
    NumIot := ⟨3, "3"⟩
    TxBytesR := ⟨4, "4"⟩
    RxBytesR := ⟨5, "5"⟩
    NumAp := ⟨6, "6"⟩
    NumAdopted := ⟨7, "7"⟩
    NumDisabled := ⟨8, "8"⟩
    NumDisconnected := ⟨9, "9"⟩
    NumPending := ⟨10, "10"⟩
    NumGw := ⟨11, "11"⟩
    NumSw := ⟨12, "12"⟩
    NumSta := ⟨13, "13"⟩
    Latency := ⟨14, "14"⟩
    Drops := ⟨15, "15"⟩
    XputUp := ⟨16, "16"⟩
    XputDown := ⟨17, "17"⟩
    SpeedtestPing := ⟨18, "18"⟩
    RemoteUserNumActive := ⟨19, "19"⟩
    RemoteUserNumInactive := ⟨20, "20"⟩
    RemoteUserRxBytes := ⟨21, "21"⟩
    RemoteUserTxBytes := ⟨22, "22"⟩
    RemoteUserRxPackets := ⟨23, "23"⟩
    RemoteUserTxPackets := ⟨24, "24"⟩ }

/-- A site over `ℚ` with the given health records. -/
def sampleSite (health : List (Health ℚ)) : Site ℚ :=
  { Name := "default", Desc := "Home", SiteName := "Home (default)", Health := health }

/-- A report over `ℚ` with nothing collected and an empty sink. -/
def sampleReport : Report ℚ :=
  { Metrics := none, wg := 0, sink := [] }

/-- A report over `ℚ` holding the given sites, with an empty sink. -/
def sampleReportWith (sites : List (Site ℚ)) : Report ℚ :=
  { Metrics := some { Sites := sites }, wg := 0, sink := [] }

/-- A collector whose descriptors were built under the namespace "unifi". -/
def sampleCollector : unifiCollector :=
  { Site := descSite "unifi" }

/-! ## Go's `float64`

The arithmetic of `exportSite` is the one division `h.Latency.Val / 1000` on
`float64`.  The type below is IEEE 754 binary64 with its division and
multiplication rounded to nearest, ties to even. -/

/-- Go's `float64`.  A finite value is `(-1)^sign * m * 2^e / 2^1074`; the
values of the format are those with `m < 2^53`, `e ≤ 2045`, and `2^52 ≤ m`
unless `e = 0` (the subnormal numbers and the zeros).  The sign of a zero is
kept. -/
inductive Float64 where
  | finite (sign : Bool) (m : Nat) (e : Nat)
  | inf (sign : Bool)
  | nan
  deriving DecidableEq, Repr

namespace Float64

/-- The exponent of the least unit: a finite value is a multiple of
`2^(-scale)`. -/
def scale : Nat := 1074

/-- The rational number a finite value stands for; none for an infinity or a
NaN. -/
def toRat : Float64 → Option ℚ
  | finite s m e => some ((if s then -1 else 1) * ((m : ℚ) * 2 ^ e / 2 ^ scale))
  | inf _ => none
  | nan => none

/-- The 64 bits of a value of the format, as a number: sign, exponent field,
fraction. -/
def bits : Float64 → Nat
  | finite s m e =>
    (if s then 2 ^ 63 else 0) + (if m < 2 ^ 52 then m else (e + 1) * 2 ^ 52 + (m - 2 ^ 52))
  | inf s => (if s then 2 ^ 63 else 0) + 2047 * 2 ^ 52
  | nan => 2047 * 2 ^ 52 + 2 ^ 51

/-- The least exponent `k`, counted from `k` on and within `fuel` steps, at
which `N / d` has fewer than 54 bits in units of `2^k`. -/
def normExp (N d : Nat) : Nat → Nat → Nat
  | 0, k => k
  | fuel + 1, k => if N / (d * 2 ^ k) < 2 ^ 53 then k else normExp N d fuel (k + 1)

/-- The value of the format nearest to `n / d`, with the given sign: the
exponent is the least one that leaves at most 53 bits, the quotient is cut
there and rounded to nearest, ties to even; a carry out of 53 bits moves to
the next exponent, and past the largest exponent the result is an infinity. -/
def round (sign : Bool) (n d : Nat) : Float64 :=
  if n = 0 then finite sign 0 0
  else
    let N := n * 2 ^ scale
    let k := normExp N d 2047 0
    let den := d * 2 ^ k
    let m0 := N / den
    let rem := N % den
    let m := if den < 2 * rem ∨ (2 * rem = den ∧ m0 % 2 = 1) then m0 + 1 else m0
    if m = 2 ^ 53 then
      if 2045 < k + 1 then inf sign else finite sign (2 ^ 52) (k + 1)
    else
      if 2045 < k then inf sign else finite sign m k

/-- The operator `/` of `float64`. -/
def div : Float64 → Float64 → Float64
  | nan, _ => nan
  | _, nan => nan
  | inf _, inf _ => nan
  | inf s, finite t _ _ => inf (xor s t)
  | finite s _ _, inf t => finite (xor s t) 0 0
  | finite s m e, finite t m2 e2 =>
    if m2 = 0 then (if m = 0 then nan else inf (xor s t))
    else round (xor s t) (m * 2 ^ e) (m2 * 2 ^ e2)

/-- The operator `*` of `float64`. -/
def mul : Float64 → Float64 → Float64
  | nan, _ => nan
  | _, nan => nan
  | inf s, inf t => inf (xor s t)
  | inf s, finite t m _ => if m = 0 then nan else inf (xor s t)
  | finite s m _, inf t => if m = 0 then nan else inf (xor s t)
  | finite s m e, finite t m2 e2 =>
    round (xor s t) (m * 2 ^ e * (m2 * 2 ^ e2)) (2 ^ scale * 2 ^ scale)

/-- The `float64` of a natural-number constant such as `1000`. -/
def ofNat (n : Nat) : Float64 := round false n 1

end Float64

instance Float64.instDiv : Div Float64 := ⟨Float64.div⟩

instance Float64.instMul : Mul Float64 := ⟨Float64.mul⟩

instance Float64.instOfNat (n : Nat) : OfNat Float64 n := ⟨Float64.ofNat n⟩

/-- A health record over `float64` with the given subsystem tag and Latency
field; every other number is zero. -/
def sampleHealth64 (subsystem : String) (latency : Float64) (txt : String) :
    Health Float64 :=
  { Subsystem := subsystem
    Status := "ok"
    NumUser := ⟨0, "0"⟩
    NumGuest := ⟨0, "0"⟩
    NumIot := ⟨0, "0"⟩
    TxBytesR := ⟨0, "0"⟩
    RxBytesR := ⟨0, "0"⟩
    NumAp := ⟨0, "0"⟩
    NumAdopted := ⟨0, "0"⟩
    NumDisabled := ⟨0, "0"⟩
    NumDisconnected := ⟨0, "0"⟩
    NumPending := ⟨0, "0"⟩
    NumGw := ⟨0, "0"⟩
    NumSw := ⟨0, "0"⟩
    NumSta := ⟨0, "0"⟩
    Latency := ⟨latency, txt⟩
    Drops := ⟨0, "0"⟩
    XputUp := ⟨0, "0"⟩
    XputDown := ⟨0, "0"⟩
    SpeedtestPing := ⟨0, "0"⟩
    RemoteUserNumActive := ⟨0, "0"⟩
    RemoteUserNumInactive := ⟨0, "0"⟩
    RemoteUserRxBytes := ⟨0, "0"⟩
    RemoteUserTxBytes := ⟨0, "0"⟩
    RemoteUserRxPackets := ⟨0, "0"⟩
    RemoteUserTxPackets := ⟨0, "0"⟩ }

/-- A site over `float64` with the given health records. -/
def sampleSite64 (health : List (Health Float64)) : Site Float64 :=
  { Name := "default", Desc := "Home", SiteName := "Home (default)", Health := health }

/-! ## Properties -/

section Properties

variable {F : Type} [Div F] [OfNat F 1000]

/-- Processing one more record is one more run of the loop body. -/
theorem exportSite_snoc (u : unifiCollector) (r : Report F) (s : Site F)
    (pre : List (Health F)) (h : Health F) :
    exportSite u r { s with Health := pre ++ [h] } =
      exportHealth u [s.Name, s.Desc, s.SiteName] (exportSite u r { s with Health := pre }) h := by
  simp [exportSite, List.foldl_append]

/-- The loop body only appends to the sink, and what it appends does not
depend on the report. -/
theorem exportHealth_sink (u : unifiCollector) (labels : List String) (r : Report F)
    (h : Health F) :
    (exportHealth u labels r h).sink = r.sink ++ healthBatches u labels h := by
  by_cases h1 : h.Subsystem = "vpn"
  · simp [healthBatches, exportHealth, Report.send, h1, subsystemLAN, subsystemVPN,
      subsystemWWW, subsystemWLAN, subsystemWAN]
  by_cases h2 : h.Subsystem = "www"
  · simp [healthBatches, exportHealth, Report.send, h2, subsystemLAN, subsystemVPN,
      subsystemWWW, subsystemWLAN, subsystemWAN]
  by_cases h3 : h.Subsystem = "lan"
  · simp [healthBatches, exportHealth, Report.send, h3, subsystemLAN, subsystemVPN,
      subsystemWWW, subsystemWLAN, subsystemWAN]
  by_cases h4 : h.Subsystem = "wlan"
  · simp [healthBatches, exportHealth, Report.send, h4, subsystemLAN, subsystemVPN,
      subsystemWWW, subsystemWLAN, subsystemWAN]
  by_cases h5 : h.Subsystem = "wan"
  · simp [healthBatches, exportHealth, Report.send, h5, subsystemLAN, subsystemVPN,
      subsystemWWW, subsystemWLAN, subsystemWAN]
  simp [healthBatches, exportHealth, Report.send, h1, h2, h3, h4, h5, subsystemLAN,
    subsystemVPN, subsystemWWW, subsystemWLAN, subsystemWAN]

/-- The sink after one more record, in terms of `healthBatches`. -/
theorem exportSite_snoc_sink (u : unifiCollector) (r : Report F) (s : Site F)
    (pre : List (Health F)) (h : Health F) :
    (exportSite u r { s with Health := pre ++ [h] }).sink =
      (exportSite u r { s with Health := pre }).sink ++
        healthBatches u [s.Name, s.Desc, s.SiteName] h := by
  rw [exportSite_snoc, exportHealth_sink]

/-- Every record makes the loop body send at least one batch. -/
theorem healthBatches_ne_nil (u : unifiCollector) (labels : List String) (h : Health F) :
    healthBatches u labels h ≠ [] := by
  by_cases h1 : h.Subsystem = "vpn"
  · simp [healthBatches, exportHealth, Report.send, h1, subsystemLAN, subsystemVPN,
      subsystemWWW, subsystemWLAN, subsystemWAN]
  by_cases h2 : h.Subsystem = "www"
  · simp [healthBatches, exportHealth, Report.send, h2, subsystemLAN, subsystemVPN,
      subsystemWWW, subsystemWLAN, subsystemWAN]
  by_cases h3 : h.Subsystem = "lan"
  · simp [healthBatches, exportHealth, Report.send, h3, subsystemLAN, subsystemVPN,
      subsystemWWW, subsystemWLAN, subsystemWAN]
  by_cases h4 : h.Subsystem = "wlan"
  · simp [healthBatches, exportHealth, Report.send, h4, subsystemLAN, subsystemVPN,
      subsystemWWW, subsystemWLAN, subsystemWAN]
  by_cases h5 : h.Subsystem = "wan"
  · simp [healthBatches, exportHealth, Report.send, h5, subsystemLAN, subsystemVPN,
      subsystemWWW, subsystemWLAN, subsystemWAN]
  simp [healthBatches, exportHealth, Report.send, h1, h2, h3, h4, h5, subsystemLAN,
    subsystemVPN, subsystemWWW, subsystemWLAN, subsystemWAN]

/-- Appending to a fixed string is injective. -/
theorem string_append_right_inj (p a b : String) : p ++ a = p ++ b ↔ a = b := by
  constructor
  · intro hab
    have hd := congrArg String.data hab
    simp only [String.data_append, List.append_cancel_left_eq] at hd
    exact String.ext hd
  · rintro rfl
    rfl

/-- Appending "_site_" gives back "_site_" only for the empty string. -/
theorem append_site_eq_iff (ns : String) : ns ++ "_site_" = "_site_" ↔ ns = "" := by
  constructor
  · intro hns
    have hd := congrArg String.data hns
    simp only [String.data_append] at hd
    exact String.ext (List.append_left_eq_self.mp hd)
  · rintro rfl
    rfl

/-- The name stem `descSite` puts in front of every metric. -/
theorem descSite_stem (ns : String) :
    (if ns ++ "_site_" = "_site_" then "site_" else ns ++ "_site_") =
      (if ns = "" then "site_" else ns ++ "_site_") := by
  simp only [append_site_eq_iff]

/-- Walking a list of records appends, record by record, what the loop body
sends. -/
theorem foldl_exportHealth_sink (u : unifiCollector) (labels : List String)
    (hs : List (Health F)) (r : Report F) :
    (hs.foldl (exportHealth u labels) r).sink =
      r.sink ++ hs.flatMap (healthBatches u labels) := by
  induction hs generalizing r with
  | nil => simp
  | cons h t ih =>
    rw [List.foldl_cons, ih, exportHealth_sink, List.flatMap_cons, List.append_assoc]

/-- What `exportSite` sends for a site whose only record is `h`, starting from
an empty sink, is what the loop body sends for `h`. -/
theorem exportSite_single (u : unifiCollector) (s : Site F) (h : Health F) :
    (exportSite u emptyReport { s with Health := [h] }).sink =
      healthBatches u [s.Name, s.Desc, s.SiteName] h := rfl

/-- The sink after `exportSite`, record by record. -/
theorem exportSite_sink (u : unifiCollector) (r : Report F) (s : Site F) :
    (exportSite u r s).sink =
      r.sink ++ s.Health.flatMap
        (fun h => (exportSite u emptyReport { s with Health := [h] }).sink) := by
  simp only [exportSite_single]
  exact foldl_exportHealth_sink u _ s.Health r

/-- The sink after walking a list of sites, site by site and record by
record. -/
theorem foldl_exportSite_sink (u : unifiCollector) (sites : List (Site F)) (r : Report F) :
    (sites.foldl (exportSite u) r).sink =
      r.sink ++ sites.flatMap (fun s => s.Health.flatMap
        (fun h => (exportSite u emptyReport { s with Health := [h] }).sink)) := by
  induction sites generalizing r with
  | nil => simp
  | cons s t ih =>
    rw [List.foldl_cons, ih, exportSite_sink, List.flatMap_cons, List.append_assoc]

/-- The loop body leaves the wait group alone. -/
theorem exportHealth_wg (u : unifiCollector) (labels : List String) (r : Report F)
    (h : Health F) : (exportHealth u labels r h).wg = r.wg := by
  by_cases h1 : h.Subsystem = "vpn"
  · simp [exportHealth, Report.send, h1, subsystemLAN, subsystemVPN,
      subsystemWWW, subsystemWLAN, subsystemWAN]
  by_cases h2 : h.Subsystem = "www"
  · simp [exportHealth, Report.send, h2, subsystemLAN, subsystemVPN,
      subsystemWWW, subsystemWLAN, subsystemWAN]
  by_cases h3 : h.Subsystem = "lan"
  · simp [exportHealth, Report.send, h3, subsystemLAN, subsystemVPN,
      subsystemWWW, subsystemWLAN, subsystemWAN]
  by_cases h4 : h.Subsystem = "wlan"
  · simp [exportHealth, Report.send, h4, subsystemLAN, subsystemVPN,
      subsystemWWW, subsystemWLAN, subsystemWAN]
  by_cases h5 : h.Subsystem = "wan"
  · simp [exportHealth, Report.send, h5, subsystemLAN, subsystemVPN,
      subsystemWWW, subsystemWLAN, subsystemWAN]
  simp [exportHealth, Report.send, h1, h2, h3, h4, h5, subsystemLAN,
    subsystemVPN, subsystemWWW, subsystemWLAN, subsystemWAN]

/-- The method `exportSite` leaves the wait group alone. -/
theorem exportSite_wg (u : unifiCollector) (r : Report F) (s : Site F) :
    (exportSite u r s).wg = r.wg := by
  simp only [exportSite]
  generalize [s.Name, s.Desc, s.SiteName] = labels
  induction s.Health generalizing r with
  | nil => rfl
  | cons h t ih => rw [List.foldl_cons, ih, exportHealth_wg]

/-- A name `P ++ m` ends in "_total" as soon as `m` does. -/
theorem ends_total_of (P m : String) (hm : "_total".data <:+ m.data) :
    (∃ q : String, P ++ m = q ++ "_total") = True := by
  obtain ⟨l, hl⟩ := hm
  refine eq_true ⟨P ++ ⟨l⟩, String.ext ?_⟩
  simp only [String.data_append, List.append_assoc, hl]

/-- A name `P ++ m`, with `m` of at least six characters, does not end in
"_total" unless `m` does. -/
theorem not_ends_total_of (P m : String) (h6 : 6 ≤ m.length)
    (hm : ¬ "_total".data <:+ m.data) :
    (∃ q : String, P ++ m = q ++ "_total") = False := by
  refine eq_false ?_
  rintro ⟨q, hq⟩
  have hd := congrArg String.data hq
  simp only [String.data_append] at hd
  have h1 : "_total".data <:+ P.data ++ m.data := ⟨q.data, hd.symm⟩
  have h2 : m.data <:+ P.data ++ m.data := ⟨P.data, rfl⟩
  exact hm (List.suffix_of_suffix_length_le h1 h2 h6)

/-- The same as `not_ends_total_of`, name by name. -/
theorem forall_not_ends_total_of (P m : String) (h6 : 6 ≤ m.length)
    (hm : ¬ "_total".data <:+ m.data) :
    (∀ q : String, ¬ P ++ m = q ++ "_total") = True := by
  refine eq_true fun q hq => ?_
  have hfalse := not_ends_total_of P m h6 hm
  rw [← hfalse]
  exact ⟨q, hq⟩

/-! ### Rounding -/

/-- Cutting a quotient and rounding it to nearest, ties to even, moves it by
at most one half. -/
theorem round_core (N den m0 r : Nat) (hden : den ≠ 0) (hN : N = den * m0 + r)
    (hr : r < den) :
    |((if den < 2 * r ∨ (2 * r = den ∧ m0 % 2 = 1) then m0 + 1 else m0 : Nat) : ℚ)
      - (N : ℚ) / den| ≤ 1 / 2 := by
  have hdq : (0 : ℚ) < den := by exact_mod_cast Nat.pos_of_ne_zero hden
  have hrq : (r : ℚ) < den := by exact_mod_cast hr
  have hq : (N : ℚ) / den = m0 + (r : ℚ) / den := by
    rw [hN]; push_cast; field_simp; ring
  rw [hq]
  split_ifs with hc
  · have h2 : (den : ℚ) ≤ 2 * r := by
      rcases hc with hc | ⟨hc, -⟩
      · exact_mod_cast hc.le
      · exact_mod_cast hc.ge
    have h3 : (1 : ℚ) / 2 ≤ r / den := by
      rw [div_le_div_iff₀ (by norm_num) hdq]; linarith
    have h4 : (r : ℚ) / den < 1 := by
      rw [div_lt_one hdq]; exact hrq
    push_cast
    rw [abs_le]
    constructor <;> linarith
  · have h2 : 2 * (r : ℚ) ≤ den := by
      have : ¬ den < 2 * r := fun h => hc (Or.inl h)
      exact_mod_cast Nat.le_of_not_lt this
    have h3 : (r : ℚ) / den ≤ 1 / 2 := by
      rw [div_le_div_iff₀ hdq (by norm_num)]; linarith
    have h4 : (0 : ℚ) ≤ r / den := by positivity
    rw [abs_le]
    constructor <;> linarith

/-- A finite result of `Float64.round` has the sign asked for and lies within
half a unit in its last place of the quotient. -/
theorem round_accuracy (sign : Bool) (n d : Nat) (hd : d ≠ 0) (s : Bool) (m e : Nat)
    (hres : Float64.round sign n d = .finite s m e) :
    s = sign ∧
      |(m : ℚ) * 2 ^ e / 2 ^ Float64.scale - (n : ℚ) / d| ≤ 2 ^ e / 2 ^ Float64.scale / 2 := by
  unfold Float64.round at hres
  by_cases h0 : n = 0
  · subst h0
    simp only [if_true] at hres
    cases hres
    simp only [Nat.cast_zero, zero_mul, zero_div, sub_zero, abs_zero, true_and]
    positivity
  · simp only [h0, if_false] at hres
    generalize Float64.normExp (n * 2 ^ Float64.scale) d 2047 0 = k at hres
    have hden : d * 2 ^ k ≠ 0 := by positivity
    have hcore := round_core (n * 2 ^ Float64.scale) (d * 2 ^ k)
      (n * 2 ^ Float64.scale / (d * 2 ^ k)) (n * 2 ^ Float64.scale % (d * 2 ^ k)) hden
      (Nat.div_add_mod _ _).symm (Nat.mod_lt _ (Nat.pos_of_ne_zero hden))
    generalize hm : (if d * 2 ^ k < 2 * (n * 2 ^ Float64.scale % (d * 2 ^ k)) ∨
        (2 * (n * 2 ^ Float64.scale % (d * 2 ^ k)) = d * 2 ^ k ∧
          n * 2 ^ Float64.scale / (d * 2 ^ k) % 2 = 1)
      then n * 2 ^ Float64.scale / (d * 2 ^ k) + 1
      else n * 2 ^ Float64.scale / (d * 2 ^ k)) = mm at hres hcore
    have hdq : (0 : ℚ) < d := by exact_mod_cast Nat.pos_of_ne_zero hd
    have hscale : (n : ℚ) / d =
        ((n * 2 ^ Float64.scale : Nat) : ℚ) / ((d * 2 ^ k : Nat) : ℚ)
          * (2 ^ k / 2 ^ Float64.scale) := by
      push_cast; field_simp; ring
    have hbound : |(mm : ℚ) * 2 ^ k / 2 ^ Float64.scale - (n : ℚ) / d| ≤
        2 ^ k / 2 ^ Float64.scale / 2 := by
      rw [hscale]
      have hpos : (0 : ℚ) < 2 ^ k / 2 ^ Float64.scale := by positivity
      have hfac : (mm : ℚ) * 2 ^ k / 2 ^ Float64.scale -
          ((n * 2 ^ Float64.scale : Nat) : ℚ) / ((d * 2 ^ k : Nat) : ℚ)
            * (2 ^ k / 2 ^ Float64.scale) =
          ((mm : ℚ) - ((n * 2 ^ Float64.scale : Nat) : ℚ) / ((d * 2 ^ k : Nat) : ℚ))
            * (2 ^ k / 2 ^ Float64.scale) := by ring
      rw [hfac, abs_mul, abs_of_pos hpos]
      calc |(mm : ℚ) - ((n * 2 ^ Float64.scale : Nat) : ℚ) / ((d * 2 ^ k : Nat) : ℚ)|
            * (2 ^ k / 2 ^ Float64.scale) ≤ 1 / 2 * (2 ^ k / 2 ^ Float64.scale) :=
            mul_le_mul_of_nonneg_right hcore hpos.le
        _ = 2 ^ k / 2 ^ Float64.scale / 2 := by ring
    split_ifs at hres with h53 hov hov
    · cases hres
      refine ⟨rfl, ?_⟩
      rw [h53] at hbound
      have e1 : ((2 ^ 52 : Nat) : ℚ) * 2 ^ (k + 1) / 2 ^ Float64.scale =
          ((2 ^ 53 : Nat) : ℚ) * 2 ^ k / 2 ^ Float64.scale := by
        push_cast; ring
      rw [e1]
      refine hbound.trans ?_
      have hpos : (0 : ℚ) < 2 ^ k / 2 ^ Float64.scale / 2 := by positivity
      have h2 : (2 : ℚ) ^ (k + 1) / 2 ^ Float64.scale / 2 =
          2 * (2 ^ k / 2 ^ Float64.scale / 2) := by ring
      rw [h2]
      linarith
    · cases hres
      exact ⟨rfl, hbound⟩

/-- The constant `1000` as a `float64`: 1000 * 2^43 units of 2^(1031 - 1074). -/
theorem thousand_eq : (1000 : Float64) = .finite false 8796093022208000 1031 := by
  decide!

/-- The exponent search stops at the first exponent that fits. -/
theorem normExp_le (N d : Nat) : ∀ (fuel k K : Nat), k ≤ K → K ≤ k + fuel →
    N / (d * 2 ^ K) < 2 ^ 53 → Float64.normExp N d fuel k ≤ K := by
  intro fuel
  induction fuel with
  | zero =>
    intro k K hk _ _
    simpa [Float64.normExp] using hk
  | succ f ih =>
    intro k K hk hK hfit
    unfold Float64.normExp
    split_ifs with hc
    · exact hk
    · have hne : k ≠ K := by
        rintro rfl
        exact hc hfit
      exact ih (k + 1) K (by omega) (by omega) hfit

/-- Division of a finite value by the constant 1000 is one rounding of the
exact quotient. -/
theorem div_thousand_finite (s : Bool) (m e : Nat) :
    (Float64.finite s m e) / 1000 =
      Float64.round s (m * 2 ^ e) (1000 * 2 ^ Float64.scale) := by
  have hd : 8796093022208000 * 2 ^ 1031 = 1000 * 2 ^ Float64.scale := by decide!
  rw [thousand_eq]
  show Float64.div _ _ = _
  simp only [Float64.div, hd]
  simp

/-- A zero divided by 1000 is the zero of the same sign. -/
theorem div_thousand_zero (s : Bool) (e : Nat) :
    (Float64.finite s 0 e) / 1000 = Float64.finite s 0 0 := by
  rw [div_thousand_finite]
  simp [Float64.round]

/-- An infinity divided by 1000 is the same infinity, a NaN stays a NaN. -/
theorem div_thousand_special :
    (∀ s : Bool, (Float64.inf s) / 1000 = Float64.inf s) ∧
      (Float64.nan / 1000 = Float64.nan) := by
  rw [thousand_eq]
  constructor
  · intro s
    show Float64.div _ _ = _
    simp [Float64.div]
  · rfl

set_option exponentiation.threshold 4096 in
/-- A finite value of the format divided by 1000 is finite. -/
theorem div_thousand_is_finite (s : Bool) (m e : Nat) (hm : m < 2 ^ 53) (he : e ≤ 2045) :
    ∃ m1 e1 : Nat, (Float64.finite s m e) / 1000 = Float64.finite s m1 e1 := by
  rw [div_thousand_finite]
  unfold Float64.round
  by_cases h0 : m * 2 ^ e = 0
  · exact ⟨0, 0, by simp [h0]⟩
  · simp only [h0, if_false]
    have hk : Float64.normExp (m * 2 ^ e * 2 ^ Float64.scale) (1000 * 2 ^ Float64.scale)
        2047 0 ≤ 2036 := by
      apply normExp_le _ _ 2047 0 2036 (by omega) (by omega)
      rw [Nat.div_lt_iff_lt_mul (by positivity)]
      have h1 : m * 2 ^ e * 2 ^ Float64.scale < 2 ^ 53 * 2 ^ 2045 * 2 ^ Float64.scale := by
        have h2e : 2 ^ e ≤ 2 ^ 2045 := Nat.pow_le_pow_right (by norm_num) he
        have hpos : 0 < 2 ^ Float64.scale := by positivity
        have : m * 2 ^ e < 2 ^ 53 * 2 ^ 2045 :=
          Nat.mul_lt_mul_of_lt_of_le hm h2e (by positivity)
        exact Nat.mul_lt_mul_of_pos_right this hpos
      have h2 : 2 ^ 53 * 2 ^ 2045 * 2 ^ Float64.scale ≤
          2 ^ 53 * (1000 * 2 ^ Float64.scale * 2 ^ 2036) := by decide!
      exact lt_of_lt_of_le h1 h2
    generalize Float64.normExp (m * 2 ^ e * 2 ^ Float64.scale) (1000 * 2 ^ Float64.scale)
      2047 0 = k at hk
    generalize (if 1000 * 2 ^ Float64.scale * 2 ^ k <
          2 * (m * 2 ^ e * 2 ^ Float64.scale % (1000 * 2 ^ Float64.scale * 2 ^ k)) ∨
        (2 * (m * 2 ^ e * 2 ^ Float64.scale % (1000 * 2 ^ Float64.scale * 2 ^ k)) =
            1000 * 2 ^ Float64.scale * 2 ^ k ∧
          m * 2 ^ e * 2 ^ Float64.scale / (1000 * 2 ^ Float64.scale * 2 ^ k) % 2 = 1)
      then m * 2 ^ e * 2 ^ Float64.scale / (1000 * 2 ^ Float64.scale * 2 ^ k) + 1
      else m * 2 ^ e * 2 ^ Float64.scale / (1000 * 2 ^ Float64.scale * 2 ^ k)) = mm
    have hk1 : ¬ 2045 < k + 1 := by omega
    have hk2 : ¬ 2045 < k := by omega
    simp only [hk1, hk2, if_false]
    by_cases h53 : mm = 2 ^ 53
    · exact ⟨_, _, by rw [if_pos h53]⟩
    · exact ⟨_, _, by rw [if_neg h53]⟩

/-- A finite quotient by 1000 lies within half a unit in its last place of
the exact quotient. -/
theorem div_thousand_accuracy (v : Float64) (s : Bool) (m e : Nat)
    (hres : v / 1000 = Float64.finite s m e) (q : ℚ) (hq : v.toRat = some q) :
    ∃ x : ℚ, (Float64.finite s m e).toRat = some x ∧
      |x - q / 1000| ≤ 2 ^ e / 2 ^ Float64.scale / 2 := by
  cases v with
  | inf sv => simp [Float64.toRat] at hq
  | nan => simp [Float64.toRat] at hq
  | finite sv mv ev =>
    rw [div_thousand_finite] at hres
    obtain ⟨hs, hb⟩ := round_accuracy sv (mv * 2 ^ ev) (1000 * 2 ^ Float64.scale)
      (by positivity) s m e hres
    subst hs
    simp only [Float64.toRat, Option.some.injEq] at hq
    subst hq
    refine ⟨_, rfl, ?_⟩
    have hpos : (0 : ℚ) < 2 ^ Float64.scale := by positivity
    have hexact : ((mv * 2 ^ ev : Nat) : ℚ) / ((1000 * 2 ^ Float64.scale : Nat) : ℚ) =
        (mv : ℚ) * 2 ^ ev / 2 ^ Float64.scale / 1000 := by
      push_cast
      rw [div_div, mul_comm (2 ^ Float64.scale : ℚ) 1000]
    rw [hexact] at hb
    cases s
    · simpa using hb
    · have hneg : (if true = true then (-1 : ℚ) else 1) * ((m : ℚ) * 2 ^ e / 2 ^ Float64.scale)
          - (if true = true then (-1 : ℚ) else 1) * ((mv : ℚ) * 2 ^ ev / 2 ^ Float64.scale)
            / 1000 =
          -((m : ℚ) * 2 ^ e / 2 ^ Float64.scale
            - (mv : ℚ) * 2 ^ ev / 2 ^ Float64.scale / 1000) := by
        simp only [if_true]; ring
      rw [hneg, abs_neg]
      exact hb

/-- The quotient 14 / 1000 in `float64`. -/
theorem div_14_thousand :
    (Float64.ofNat 14) / 1000 = Float64.finite false 0x1CAC083126E979 1015 := by
  decide!

/-- The quotient 1001 / 1000 in `float64` and its product with 1000. -/
theorem div_1001_thousand :
    (Float64.ofNat 1001) / 1000 = Float64.finite false 0x1004189374BC6A 1022 ∧
      (1000 : Float64) * Float64.finite false 0x1004189374BC6A 1022 =
        Float64.finite false 0x1F47FFFFFFFFFF 1031 ∧
      Float64.ofNat 1001 = Float64.finite false 0x1F480000000000 1031 := by
  decide!

/-! ### The two samples built from the Latency field -/

/-- For a record tagged "www", under the descriptors of `descSite ns`, the
batches of the record hold exactly one sample with the Uptime descriptor and
exactly one with the Latency descriptor: the first carries the whole Latency
field, the second the number `h.Latency.Val / 1000`. -/
theorem www_uptime_latency (ns : String) (s : Site F) (h : Health F)
    (hsub : h.Subsystem = "www") :
    (healthBatches { Site := descSite ns } [s.Name, s.Desc, s.SiteName] h).flatten.filter
        (fun m => m.Desc = (descSite ns).Uptime) =
      [⟨(descSite ns).Uptime, .GaugeValue, .flexInt h.Latency,
        [h.Subsystem, h.Status, s.Name, s.Desc, s.SiteName]⟩] ∧
    (healthBatches { Site := descSite ns } [s.Name, s.Desc, s.SiteName] h).flatten.filter
        (fun m => m.Desc = (descSite ns).Latency) =
      [⟨(descSite ns).Latency, .GaugeValue, .float64 (h.Latency.Val / 1000),
        [h.Subsystem, h.Status, s.Name, s.Desc, s.SiteName]⟩] := by
  constructor <;>
  simp [healthBatches, exportHealth, Report.send, hsub, descSite, NewDesc,
    string_append_right_inj, subsystemLAN, subsystemVPN, subsystemWWW, subsystemWLAN,
    subsystemWAN, List.filter_cons]

/-- C1: for a record tagged "lan", placed after any records `pre` of any site,
`exportSite` adds to the sink exactly four batches holding 9 samples and no
others: throughput (TxBytesR, RxBytesR), adoption (NumAdopted,
NumDisconnected, NumPending), occupancy (NumUser, NumGuest, NumIot) and
infrastructure (NumSw). -/
theorem lan_emission (u : unifiCollector) (r : Report F) (s : Site F)
    (pre : List (Health F)) (h : Health F) (hsub : h.Subsystem = "lan") :
    ∃ bs : List (List (metricExports F)),
      (exportSite u r { s with Health := pre ++ [h] }).sink =
        (exportSite u r { s with Health := pre }).sink ++ bs ∧
      bs = [
        [⟨u.Site.TxBytesR, .GaugeValue, .flexInt h.TxBytesR,
            [h.Subsystem, h.Status, s.Name, s.Desc, s.SiteName]⟩,
         ⟨u.Site.RxBytesR, .GaugeValue, .flexInt h.RxBytesR,
            [h.Subsystem, h.Status, s.Name, s.Desc, s.SiteName]⟩],
        [⟨u.Site.NumAdopted, .GaugeValue, .flexInt h.NumAdopted,
            [h.Subsystem, h.Status, s.Name, s.Desc, s.SiteName]⟩,
         ⟨u.Site.NumDisconnected, .GaugeValue, .flexInt h.NumDisconnected,
            [h.Subsystem, h.Status, s.Name, s.Desc, s.SiteName]⟩,
         ⟨u.Site.NumPending, .GaugeValue, .flexInt h.NumPending,
            [h.Subsystem, h.Status, s.Name, s.Desc, s.SiteName]⟩],
        [⟨u.Site.NumUser, .GaugeValue, .flexInt h.NumUser,
            [h.Subsystem, h.Status, s.Name, s.Desc, s.SiteName]⟩,
         ⟨u.Site.NumGuest, .GaugeValue, .flexInt h.NumGuest,
            [h.Subsystem, h.Status, s.Name, s.Desc, s.SiteName]⟩,
         ⟨u.Site.NumIot, .GaugeValue, .flexInt h.NumIot,
            [h.Subsystem, h.Status, s.Name, s.Desc, s.SiteName]⟩],
        [⟨u.Site.NumSw, .GaugeValue, .flexInt h.NumSw,
            [h.Subsystem, h.Status, s.Name, s.Desc, s.SiteName]⟩]] ∧
      bs.length = 4 ∧ bs.flatten.length = 9 := by
  refine ⟨_, ?_, rfl, rfl, rfl⟩
  rw [exportSite_snoc]
  simp [exportHealth, Report.send, hsub, subsystemLAN, subsystemVPN, subsystemWWW,
    subsystemWLAN, subsystemWAN]

/-- Instance of `lan_emission` on a one-record site over `ℚ`: the batches in
the sink have sizes [2, 3, 3, 1]. -/
theorem lan_emission_witness :
    (sampleHealth "lan").Subsystem = "lan" ∧
      (exportSite sampleCollector sampleReport (sampleSite [sampleHealth "lan"])).sink.map
        List.length = [2, 3, 3, 1] := by
  refine ⟨rfl, ?_⟩
  obtain ⟨bs, h1, h2, -⟩ :=
    lan_emission sampleCollector sampleReport (sampleSite []) [] (sampleHealth "lan") rfl
  have hs : sampleSite [sampleHealth "lan"] =
      { sampleSite [] with Health := [] ++ [sampleHealth "lan"] } := rfl
  rw [hs, h1, h2]
  rfl

/-- C2: for a record tagged "wlan" `exportSite` adds to the sink exactly 10
samples and no others: throughput (TxBytesR, RxBytesR), adoption
(NumAdopted, NumDisconnected, NumPending), occupancy (NumUser, NumGuest,
NumIot) and access-point stats (NumAp, NumDisabled). -/
theorem wlan_emission (u : unifiCollector) (r : Report F) (s : Site F)
    (pre : List (Health F)) (h : Health F) (hsub : h.Subsystem = "wlan") :
    ∃ bs : List (List (metricExports F)),
      (exportSite u r { s with Health := pre ++ [h] }).sink =
        (exportSite u r { s with Health := pre }).sink ++ bs ∧
      bs = [
        [⟨u.Site.TxBytesR, .GaugeValue, .flexInt h.TxBytesR,
            [h.Subsystem, h.Status, s.Name, s.Desc, s.SiteName]⟩,
         ⟨u.Site.RxBytesR, .GaugeValue, .flexInt h.RxBytesR,
            [h.Subsystem, h.Status, s.Name, s.Desc, s.SiteName]⟩],
        [⟨u.Site.NumAdopted, .GaugeValue, .flexInt h.NumAdopted,
            [h.Subsystem, h.Status, s.Name, s.Desc, s.SiteName]⟩,
         ⟨u.Site.NumDisconnected, .GaugeValue, .flexInt h.NumDisconnected,
            [h.Subsystem, h.Status, s.Name, s.Desc, s.SiteName]⟩,
         ⟨u.Site.NumPending, .GaugeValue, .flexInt h.NumPending,
            [h.Subsystem, h.Status, s.Name, s.Desc, s.SiteName]⟩],
        [⟨u.Site.NumUser, .GaugeValue, .flexInt h.NumUser,
            [h.Subsystem, h.Status, s.Name, s.Desc, s.SiteName]⟩,
         ⟨u.Site.NumGuest, .GaugeValue, .flexInt h.NumGuest,
            [h.Subsystem, h.Status, s.Name, s.Desc, s.SiteName]⟩,
         ⟨u.Site.NumIot, .GaugeValue, .flexInt h.NumIot,
            [h.Subsystem, h.Status, s.Name, s.Desc, s.SiteName]⟩],
        [⟨u.Site.NumAp, .GaugeValue, .flexInt h.NumAp,
            [h.Subsystem, h.Status, s.Name, s.Desc, s.SiteName]⟩,
         ⟨u.Site.NumDisabled, .GaugeValue, .flexInt h.NumDisabled,
            [h.Subsystem, h.Status, s.Name, s.Desc, s.SiteName]⟩]] ∧
      bs.length = 4 ∧ bs.flatten.length = 10 := by
  refine ⟨_, ?_, rfl, rfl, rfl⟩
  rw [exportSite_snoc]
  simp [exportHealth, Report.send, hsub, subsystemLAN, subsystemVPN, subsystemWWW,
    subsystemWLAN, subsystemWAN]

/-- Instance of `wlan_emission` on a one-record site over `ℚ`: the batches in
the sink have sizes [2, 3, 3, 2]. -/
theorem wlan_emission_witness :
    (sampleHealth "wlan").Subsystem = "wlan" ∧
      (exportSite sampleCollector sampleReport (sampleSite [sampleHealth "wlan"])).sink.map
        List.length = [2, 3, 3, 2] := by
  refine ⟨rfl, ?_⟩
  obtain ⟨bs, h1, h2, -⟩ :=
    wlan_emission sampleCollector sampleReport (sampleSite []) [] (sampleHealth "wlan") rfl
  have hs : sampleSite [sampleHealth "wlan"] =
      { sampleSite [] with Health := [] ++ [sampleHealth "wlan"] } := rfl
  rw [hs, h1, h2]
  rfl

/-- C3: for a record tagged "wan" `exportSite` adds to the sink exactly 7
samples and no others: throughput (TxBytesR, RxBytesR), adoption
(NumAdopted, NumDisconnected, NumPending) and gateway stats (NumGw, NumSta);
no occupancy, access-point or switch sample is among them. -/
theorem wan_emission (u : unifiCollector) (r : Report F) (s : Site F)
    (pre : List (Health F)) (h : Health F) (hsub : h.Subsystem = "wan") :
    ∃ bs : List (List (metricExports F)),
      (exportSite u r { s with Health := pre ++ [h] }).sink =
        (exportSite u r { s with Health := pre }).sink ++ bs ∧
      bs = [
        [⟨u.Site.TxBytesR, .GaugeValue, .flexInt h.TxBytesR,
            [h.Subsystem, h.Status, s.Name, s.Desc, s.SiteName]⟩,
         ⟨u.Site.RxBytesR, .GaugeValue, .flexInt h.RxBytesR,
            [h.Subsystem, h.Status, s.Name, s.Desc, s.SiteName]⟩],
        [⟨u.Site.NumAdopted, .GaugeValue, .flexInt h.NumAdopted,
            [h.Subsystem, h.Status, s.Name, s.Desc, s.SiteName]⟩,
         ⟨u.Site.NumDisconnected, .GaugeValue, .flexInt h.NumDisconnected,
            [h.Subsystem, h.Status, s.Name, s.Desc, s.SiteName]⟩,
         ⟨u.Site.NumPending, .GaugeValue, .flexInt h.NumPending,
            [h.Subsystem, h.Status, s.Name, s.Desc, s.SiteName]⟩],
        [⟨u.Site.NumGw, .GaugeValue, .flexInt h.NumGw,
            [h.Subsystem, h.Status, s.Name, s.Desc, s.SiteName]⟩,
         ⟨u.Site.NumSta, .GaugeValue, .flexInt h.NumSta,
            [h.Subsystem, h.Status, s.Name, s.Desc, s.SiteName]⟩]] ∧
      bs.length = 3 ∧ bs.flatten.length = 7 := by
  refine ⟨_, ?_, rfl, rfl, rfl⟩
  rw [exportSite_snoc]
  simp [exportHealth, Report.send, hsub, subsystemLAN, subsystemVPN, subsystemWWW,
    subsystemWLAN, subsystemWAN]

/-- Instance of `wan_emission` on a one-record site over `ℚ`: the batches in
the sink have sizes [2, 3, 2]. -/
theorem wan_emission_witness :
    (sampleHealth "wan").Subsystem = "wan" ∧
      (exportSite sampleCollector sampleReport (sampleSite [sampleHealth "wan"])).sink.map
        List.length = [2, 3, 2] := by
  refine ⟨rfl, ?_⟩
  obtain ⟨bs, h1, h2, -⟩ :=
    wan_emission sampleCollector sampleReport (sampleSite []) [] (sampleHealth "wan") rfl
  have hs : sampleSite [sampleHealth "wan"] =
      { sampleSite [] with Health := [] ++ [sampleHealth "wan"] } := rfl
  rw [hs, h1, h2]
  rfl

/-- C4: for a record tagged "www" `exportSite` adds to the sink exactly 8
samples and no others: throughput (TxBytesR, RxBytesR) and the six
uplink-quality samples (Uptime, Latency, XputUp, XputDown, SpeedtestPing,
Drops). -/
theorem www_emission (u : unifiCollector) (r : Report F) (s : Site F)
    (pre : List (Health F)) (h : Health F) (hsub : h.Subsystem = "www") :
    ∃ bs : List (List (metricExports F)),
      (exportSite u r { s with Health := pre ++ [h] }).sink =
        (exportSite u r { s with Health := pre }).sink ++ bs ∧
      bs = [
        [⟨u.Site.TxBytesR, .GaugeValue, .flexInt h.TxBytesR,
            [h.Subsystem, h.Status, s.Name, s.Desc, s.SiteName]⟩,
         ⟨u.Site.RxBytesR, .GaugeValue, .flexInt h.RxBytesR,
            [h.Subsystem, h.Status, s.Name, s.Desc, s.SiteName]⟩],
        [⟨u.Site.Uptime, .GaugeValue, .flexInt h.Latency,
            [h.Subsystem, h.Status, s.Name, s.Desc, s.SiteName]⟩,
         ⟨u.Site.Latency, .GaugeValue, .float64 (h.Latency.Val / 1000),
            [h.Subsystem, h.Status, s.Name, s.Desc, s.SiteName]⟩,
         ⟨u.Site.XputUp, .GaugeValue, .flexInt h.XputUp,
            [h.Subsystem, h.Status, s.Name, s.Desc, s.SiteName]⟩,
         ⟨u.Site.XputDown, .GaugeValue, .flexInt h.XputDown,
            [h.Subsystem, h.Status, s.Name, s.Desc, s.SiteName]⟩,
         ⟨u.Site.SpeedtestPing, .GaugeValue, .flexInt h.SpeedtestPing,
            [h.Subsystem, h.Status, s.Name, s.Desc, s.SiteName]⟩,
         ⟨u.Site.Drops, .CounterValue, .flexInt h.Drops,
            [h.Subsystem, h.Status, s.Name, s.Desc, s.SiteName]⟩]] ∧
      bs.length = 2 ∧ bs.flatten.length = 8 := by
  refine ⟨_, ?_, rfl, rfl, rfl⟩
  rw [exportSite_snoc]
  simp [exportHealth, Report.send, hsub, subsystemLAN, subsystemVPN, subsystemWWW,
    subsystemWLAN, subsystemWAN]

/-- Instance of `www_emission` on a one-record site over `ℚ`: the batches in
the sink have sizes [2, 6]. -/
theorem www_emission_witness :
    (sampleHealth "www").Subsystem = "www" ∧
      (exportSite sampleCollector sampleReport (sampleSite [sampleHealth "www"])).sink.map
        List.length = [2, 6] := by
  refine ⟨rfl, ?_⟩
  obtain ⟨bs, h1, h2, -⟩ :=
    www_emission sampleCollector sampleReport (sampleSite []) [] (sampleHealth "www") rfl
  have hs : sampleSite [sampleHealth "www"] =
      { sampleSite [] with Health := [] ++ [sampleHealth "www"] } := rfl
  rw [hs, h1, h2]
  rfl

/-- C5: for a record tagged "vpn" `exportSite` adds to the sink exactly the 6
remote-access samples (RemoteUserNumActive, RemoteUserNumInactive,
RemoteUserRxBytes, RemoteUserTxBytes, RemoteUserRxPackets,
RemoteUserTxPackets) in one batch and nothing else; the throughput samples
are absent. -/
theorem vpn_emission (u : unifiCollector) (r : Report F) (s : Site F)
    (pre : List (Health F)) (h : Health F) (hsub : h.Subsystem = "vpn") :
    ∃ bs : List (List (metricExports F)),
      (exportSite u r { s with Health := pre ++ [h] }).sink =
        (exportSite u r { s with Health := pre }).sink ++ bs ∧
      bs = [
        [⟨u.Site.RemoteUserNumActive, .GaugeValue, .flexInt h.RemoteUserNumActive,
            [h.Subsystem, h.Status, s.Name, s.Desc, s.SiteName]⟩,
         ⟨u.Site.RemoteUserNumInactive, .GaugeValue, .flexInt h.RemoteUserNumInactive,
            [h.Subsystem, h.Status, s.Name, s.Desc, s.SiteName]⟩,
         ⟨u.Site.RemoteUserRxBytes, .CounterValue, .flexInt h.RemoteUserRxBytes,
            [h.Subsystem, h.Status, s.Name, s.Desc, s.SiteName]⟩,
         ⟨u.Site.RemoteUserTxBytes, .CounterValue, .flexInt h.RemoteUserTxBytes,
            [h.Subsystem, h.Status, s.Name, s.Desc, s.SiteName]⟩,
         ⟨u.Site.RemoteUserRxPackets, .CounterValue, .flexInt h.RemoteUserRxPackets,
            [h.Subsystem, h.Status, s.Name, s.Desc, s.SiteName]⟩,
         ⟨u.Site.RemoteUserTxPackets, .CounterValue, .flexInt h.RemoteUserTxPackets,
            [h.Subsystem, h.Status, s.Name, s.Desc, s.SiteName]⟩]] ∧
      bs.length = 1 ∧ bs.flatten.length = 6 := by
  refine ⟨_, ?_, rfl, rfl, rfl⟩
  rw [exportSite_snoc]
  simp [exportHealth, Report.send, hsub, subsystemLAN, subsystemVPN, subsystemWWW,
    subsystemWLAN, subsystemWAN]

/-- Instance of `vpn_emission` on a one-record site over `ℚ`: the batches in
the sink have sizes [6]. -/
theorem vpn_emission_witness :
    (sampleHealth "vpn").Subsystem = "vpn" ∧
      (exportSite sampleCollector sampleReport (sampleSite [sampleHealth "vpn"])).sink.map
        List.length = [6] := by
  refine ⟨rfl, ?_⟩
  obtain ⟨bs, h1, h2, -⟩ :=
    vpn_emission sampleCollector sampleReport (sampleSite []) [] (sampleHealth "vpn") rfl
  have hs : sampleSite [sampleHealth "vpn"] =
      { sampleSite [] with Health := [] ++ [sampleHealth "vpn"] } := rfl
  rw [hs, h1, h2]
  rfl

/-- C6, as stated, fails: a record tagged "guest", a tag outside the closed
set, still makes `exportSite` send one batch with the two throughput
samples. -/
theorem unknown_tag_emits_throughput :
    (sampleHealth "guest").Subsystem ∉ ["lan", "wan", "wlan", "www", "vpn"] ∧
      (exportSite sampleCollector sampleReport (sampleSite [sampleHealth "guest"])).sink =
        [[⟨sampleCollector.Site.TxBytesR, .GaugeValue, .flexInt ⟨4, "4"⟩,
            ["guest", "ok", "default", "Home", "Home (default)"]⟩,
          ⟨sampleCollector.Site.RxBytesR, .GaugeValue, .flexInt ⟨5, "5"⟩,
            ["guest", "ok", "default", "Home", "Home (default)"]⟩]] ∧
      (exportSite sampleCollector sampleReport
        (sampleSite [sampleHealth "guest"])).sink.flatten.length = 2 ∧
      (exportSite sampleCollector sampleReport (sampleSite [sampleHealth "guest"])).sink ≠
        sampleReport.sink := by
  refine ⟨by decide, ?_, ?_, ?_⟩ <;>
    simp [exportSite, exportHealth, Report.send, sampleSite, sampleHealth, sampleReport,
      subsystemLAN, subsystemVPN, subsystemWWW, subsystemWLAN, subsystemWAN]

/-- C6, amended: for a record whose tag is none of "lan", "wan", "wlan",
"www", "vpn", `exportSite` adds to the sink exactly one batch holding the two
throughput samples (TxBytesR, RxBytesR) and nothing else. -/
theorem unknown_tag_emission (u : unifiCollector) (r : Report F) (s : Site F)
    (pre : List (Health F)) (h : Health F)
    (hsub : h.Subsystem ∉ ["lan", "wan", "wlan", "www", "vpn"]) :
    ∃ bs : List (List (metricExports F)),
      (exportSite u r { s with Health := pre ++ [h] }).sink =
        (exportSite u r { s with Health := pre }).sink ++ bs ∧
      bs = [
        [⟨u.Site.TxBytesR, .GaugeValue, .flexInt h.TxBytesR,
            [h.Subsystem, h.Status, s.Name, s.Desc, s.SiteName]⟩,
         ⟨u.Site.RxBytesR, .GaugeValue, .flexInt h.RxBytesR,
            [h.Subsystem, h.Status, s.Name, s.Desc, s.SiteName]⟩]] ∧
      bs.length = 1 ∧ bs.flatten.length = 2 := by
  refine ⟨_, ?_, rfl, rfl, rfl⟩
  simp only [List.mem_cons, List.mem_singleton, List.not_mem_nil, or_false, not_or] at hsub
  obtain ⟨h1, h2, h3, h4, h5⟩ := hsub
  rw [exportSite_snoc]
  simp [exportHealth, Report.send, h1, h2, h3, h4, h5, subsystemLAN, subsystemVPN,
    subsystemWWW, subsystemWLAN, subsystemWAN]

/-- Instance of `unknown_tag_emission` on a one-record site over `ℚ` whose
record is tagged "guest": the sink holds one batch of two samples. -/
theorem unknown_tag_emission_witness :
    (sampleHealth "guest").Subsystem ∉ ["lan", "wan", "wlan", "www", "vpn"] ∧
      (exportSite sampleCollector sampleReport (sampleSite [sampleHealth "guest"])).sink.map
        List.length = [2] := by
  refine ⟨by decide, ?_⟩
  obtain ⟨bs, h1, h2, -⟩ :=
    unknown_tag_emission sampleCollector sampleReport (sampleSite []) []
      (sampleHealth "guest") (by decide)
  have hs : sampleSite [sampleHealth "guest"] =
      { sampleSite [] with Health := [] ++ [sampleHealth "guest"] } := rfl
  rw [hs, h1, h2]
  rfl

/-- C7: with the descriptors built by `descSite ns`, for a record with any
tag whatsoever, a sample with the TxBytesR descriptor, and likewise one with the RxBytesR descriptor, is sent if and only
if the tag is not "vpn", and a sample with any one of the six remote-access
descriptors is sent if and only if the tag is "vpn"; the throughput batch is
among the batches sent exactly when the tag is not "vpn" and the remote-access
batch exactly when it is. -/
theorem throughput_xor_remote_access (ns : String) (r : Report F) (s : Site F)
    (pre : List (Health F)) (h : Health F) :
    ∃ bs : List (List (metricExports F)),
      (exportSite { Site := descSite ns } r { s with Health := pre ++ [h] }).sink =
        (exportSite { Site := descSite ns } r { s with Health := pre }).sink ++ bs ∧
      (∀ d ∈ [(descSite ns).TxBytesR, (descSite ns).RxBytesR],
        (∃ m ∈ bs.flatten, m.Desc = d) ↔ h.Subsystem ≠ "vpn") ∧
      (∀ d ∈ [(descSite ns).RemoteUserNumActive, (descSite ns).RemoteUserNumInactive,
          (descSite ns).RemoteUserRxBytes, (descSite ns).RemoteUserTxBytes,
          (descSite ns).RemoteUserRxPackets, (descSite ns).RemoteUserTxPackets],
        (∃ m ∈ bs.flatten, m.Desc = d) ↔ h.Subsystem = "vpn") ∧
      ([⟨(descSite ns).TxBytesR, .GaugeValue, .flexInt h.TxBytesR,
            [h.Subsystem, h.Status, s.Name, s.Desc, s.SiteName]⟩,
        ⟨(descSite ns).RxBytesR, .GaugeValue, .flexInt h.RxBytesR,
            [h.Subsystem, h.Status, s.Name, s.Desc, s.SiteName]⟩] ∈ bs ↔
        h.Subsystem ≠ "vpn") ∧
      ([⟨(descSite ns).RemoteUserNumActive, .GaugeValue, .flexInt h.RemoteUserNumActive,
            [h.Subsystem, h.Status, s.Name, s.Desc, s.SiteName]⟩,
        ⟨(descSite ns).RemoteUserNumInactive, .GaugeValue, .flexInt h.RemoteUserNumInactive,
            [h.Subsystem, h.Status, s.Name, s.Desc, s.SiteName]⟩,
        ⟨(descSite ns).RemoteUserRxBytes, .CounterValue, .flexInt h.RemoteUserRxBytes,
            [h.Subsystem, h.Status, s.Name, s.Desc, s.SiteName]⟩,
        ⟨(descSite ns).RemoteUserTxBytes, .CounterValue, .flexInt h.RemoteUserTxBytes,
            [h.Subsystem, h.Status, s.Name, s.Desc, s.SiteName]⟩,
        ⟨(descSite ns).RemoteUserRxPackets, .CounterValue, .flexInt h.RemoteUserRxPackets,
            [h.Subsystem, h.Status, s.Name, s.Desc, s.SiteName]⟩,
        ⟨(descSite ns).RemoteUserTxPackets, .CounterValue, .flexInt h.RemoteUserTxPackets,
            [h.Subsystem, h.Status, s.Name, s.Desc, s.SiteName]⟩] ∈ bs ↔
        h.Subsystem = "vpn") := by
  refine ⟨_, exportSite_snoc_sink _ r s pre h, ?_⟩
  by_cases h1 : h.Subsystem = "vpn"
  · simp [healthBatches, exportHealth, Report.send, h1, descSite, NewDesc,
      string_append_right_inj, subsystemLAN, subsystemVPN, subsystemWWW, subsystemWLAN,
      subsystemWAN]
  by_cases h2 : h.Subsystem = "www"
  · simp [healthBatches, exportHealth, Report.send, h2, descSite, NewDesc,
      string_append_right_inj, subsystemLAN, subsystemVPN, subsystemWWW, subsystemWLAN,
      subsystemWAN]
  by_cases h3 : h.Subsystem = "lan"
  · simp [healthBatches, exportHealth, Report.send, h3, descSite, NewDesc,
      string_append_right_inj, subsystemLAN, subsystemVPN, subsystemWWW, subsystemWLAN,
      subsystemWAN]
  by_cases h4 : h.Subsystem = "wlan"
  · simp [healthBatches, exportHealth, Report.send, h4, descSite, NewDesc,
      string_append_right_inj, subsystemLAN, subsystemVPN, subsystemWWW, subsystemWLAN,
      subsystemWAN]
  by_cases h5 : h.Subsystem = "wan"
  · simp [healthBatches, exportHealth, Report.send, h5, descSite, NewDesc,
      string_append_right_inj, subsystemLAN, subsystemVPN, subsystemWWW, subsystemWLAN,
      subsystemWAN]
  simp [healthBatches, exportHealth, Report.send, h1, h2, h3, h4, h5, descSite, NewDesc,
    string_append_right_inj, subsystemLAN, subsystemVPN, subsystemWWW, subsystemWLAN,
    subsystemWAN]

/-- C8: with the descriptors built by `descSite ns`, for a record with any
tag, every sample sent for it carries the label values [h.Subsystem, h.Status, s.Name, s.Desc, s.SiteName]: five values
that line up position by position with the label names [subsystem, status,
name, desc, site_name] declared by the sample's descriptor; at least one batch
is sent, so the statement is about actual samples. -/
theorem label_tuple (ns : String) (r : Report F) (s : Site F)
    (pre : List (Health F)) (h : Health F) :
    ∃ bs : List (List (metricExports F)),
      (exportSite { Site := descSite ns } r { s with Health := pre ++ [h] }).sink =
        (exportSite { Site := descSite ns } r { s with Health := pre }).sink ++ bs ∧
      bs ≠ [] ∧
      ∀ m ∈ bs.flatten,
        m.Labels = [h.Subsystem, h.Status, s.Name, s.Desc, s.SiteName] ∧
        m.Labels.length = 5 ∧
        m.Desc.variableLabels = ["subsystem", "status", "name", "desc", "site_name"] ∧
        m.Desc.variableLabels.zip m.Labels =
          [("subsystem", h.Subsystem), ("status", h.Status), ("name", s.Name),
           ("desc", s.Desc), ("site_name", s.SiteName)] := by
  refine ⟨_, exportSite_snoc_sink _ r s pre h, healthBatches_ne_nil _ _ h, ?_⟩
  by_cases h1 : h.Subsystem = "vpn"
  · simp [healthBatches, exportHealth, Report.send, h1, descSite, NewDesc,
      string_append_right_inj, subsystemLAN, subsystemVPN, subsystemWWW, subsystemWLAN,
      subsystemWAN]
  by_cases h2 : h.Subsystem = "www"
  · simp [healthBatches, exportHealth, Report.send, h2, descSite, NewDesc,
      string_append_right_inj, subsystemLAN, subsystemVPN, subsystemWWW, subsystemWLAN,
      subsystemWAN]
  by_cases h3 : h.Subsystem = "lan"
  · simp [healthBatches, exportHealth, Report.send, h3, descSite, NewDesc,
      string_append_right_inj, subsystemLAN, subsystemVPN, subsystemWWW, subsystemWLAN,
      subsystemWAN]
  by_cases h4 : h.Subsystem = "wlan"
  · simp [healthBatches, exportHealth, Report.send, h4, descSite, NewDesc,
      string_append_right_inj, subsystemLAN, subsystemVPN, subsystemWWW, subsystemWLAN,
      subsystemWAN]
  by_cases h5 : h.Subsystem = "wan"
  · simp [healthBatches, exportHealth, Report.send, h5, descSite, NewDesc,
      string_append_right_inj, subsystemLAN, subsystemVPN, subsystemWWW, subsystemWLAN,
      subsystemWAN]
  simp [healthBatches, exportHealth, Report.send, h1, h2, h3, h4, h5, descSite, NewDesc,
    string_append_right_inj, subsystemLAN, subsystemVPN, subsystemWWW, subsystemWLAN,
    subsystemWAN]

/-- C9: with the descriptors built by `descSite ns`, for a record with any
tag, a sample sent for it has value kind counter exactly when its descriptor is one of Drops, RemoteUserRxBytes,
RemoteUserTxBytes, RemoteUserRxPackets, RemoteUserTxPackets, and value kind
gauge exactly when it is none of them; samples with the RemoteUserNumActive or
RemoteUserNumInactive descriptor are gauges. -/
theorem value_kind (ns : String) (r : Report F) (s : Site F)
    (pre : List (Health F)) (h : Health F) :
    ∃ bs : List (List (metricExports F)),
      (exportSite { Site := descSite ns } r { s with Health := pre ++ [h] }).sink =
        (exportSite { Site := descSite ns } r { s with Health := pre }).sink ++ bs ∧
      bs ≠ [] ∧
      ∀ m ∈ bs.flatten,
        (m.ValueType = .CounterValue ↔
          m.Desc ∈ [(descSite ns).Drops, (descSite ns).RemoteUserRxBytes,
            (descSite ns).RemoteUserTxBytes, (descSite ns).RemoteUserRxPackets,
            (descSite ns).RemoteUserTxPackets]) ∧
        (m.ValueType = .GaugeValue ↔
          m.Desc ∉ [(descSite ns).Drops, (descSite ns).RemoteUserRxBytes,
            (descSite ns).RemoteUserTxBytes, (descSite ns).RemoteUserRxPackets,
            (descSite ns).RemoteUserTxPackets]) ∧
        (m.Desc ∈ [(descSite ns).RemoteUserNumActive, (descSite ns).RemoteUserNumInactive] →
          m.ValueType = .GaugeValue) := by
  refine ⟨_, exportSite_snoc_sink _ r s pre h, healthBatches_ne_nil _ _ h, ?_⟩
  by_cases h1 : h.Subsystem = "vpn"
  · simp [healthBatches, exportHealth, Report.send, h1, descSite, NewDesc,
      string_append_right_inj, subsystemLAN, subsystemVPN, subsystemWWW, subsystemWLAN,
      subsystemWAN]
  by_cases h2 : h.Subsystem = "www"
  · simp [healthBatches, exportHealth, Report.send, h2, descSite, NewDesc,
      string_append_right_inj, subsystemLAN, subsystemVPN, subsystemWWW, subsystemWLAN,
      subsystemWAN]
  by_cases h3 : h.Subsystem = "lan"
  · simp [healthBatches, exportHealth, Report.send, h3, descSite, NewDesc,
      string_append_right_inj, subsystemLAN, subsystemVPN, subsystemWWW, subsystemWLAN,
      subsystemWAN]
  by_cases h4 : h.Subsystem = "wlan"
  · simp [healthBatches, exportHealth, Report.send, h4, descSite, NewDesc,
      string_append_right_inj, subsystemLAN, subsystemVPN, subsystemWWW, subsystemWLAN,
      subsystemWAN]
  by_cases h5 : h.Subsystem = "wan"
  · simp [healthBatches, exportHealth, Report.send, h5, descSite, NewDesc,
      string_append_right_inj, subsystemLAN, subsystemVPN, subsystemWWW, subsystemWLAN,
      subsystemWAN]
  simp [healthBatches, exportHealth, Report.send, h1, h2, h3, h4, h5, descSite, NewDesc,
    string_append_right_inj, subsystemLAN, subsystemVPN, subsystemWWW, subsystemWLAN,
    subsystemWAN]

/-- C10, as stated, fails: for a record tagged "www" with raw latency 14
the sample with the Latency descriptor carries the `float64` with bits
0x3F8CAC083126E979, which is not the exact quotient 14 / 1000: a thousand
times it is not 14. -/
theorem latency_quotient_not_exact :
    (sampleHealth64 "www" (Float64.ofNat 14) "14").Subsystem = "www" ∧
    (Float64.ofNat 14).toRat = some 14 ∧
    (exportSite sampleCollector emptyReport
        (sampleSite64 [sampleHealth64 "www" (Float64.ofNat 14) "14"])).sink.flatten.filter
        (fun m => m.Desc = sampleCollector.Site.Latency) =
      [⟨sampleCollector.Site.Latency, .GaugeValue,
        .float64 (.finite false 0x1CAC083126E979 1015),
        ["www", "ok", "default", "Home", "Home (default)"]⟩] ∧
    (Float64.finite false 0x1CAC083126E979 1015).bits = 0x3F8CAC083126E979 ∧
    ∀ x : ℚ, (Float64.finite false 0x1CAC083126E979 1015).toRat = some x →
      x ≠ 14 / 1000 ∧ x * 1000 ≠ 14 := by
  refine ⟨rfl, ?_, ?_, by decide!, ?_⟩
  · have h14 : Float64.ofNat 14 = .finite false 7881299347898368 1025 := by decide!
    rw [h14]
    simp only [Float64.toRat, Float64.scale]
    norm_num
  · have hs : (exportSite sampleCollector emptyReport
        (sampleSite64 [sampleHealth64 "www" (Float64.ofNat 14) "14"])).sink =
        healthBatches { Site := descSite "unifi" }
          [(sampleSite64 []).Name, (sampleSite64 []).Desc, (sampleSite64 []).SiteName]
          (sampleHealth64 "www" (Float64.ofNat 14) "14") := rfl
    rw [hs]
    refine ((www_uptime_latency "unifi" (sampleSite64 []) _ rfl).2).trans ?_
    simp only [sampleHealth64, sampleSite64, sampleCollector, div_14_thousand]
  · intro x hx
    set_option exponentiation.threshold 4096 in
    simp only [Float64.toRat, Float64.scale, Option.some.injEq] at hx
    subst hx
    constructor <;> norm_num

/-- C10, amended: with the descriptors built by `descSite ns`, for a record
tagged "www" exactly one sample is sent with the Latency descriptor, whose
name ends in "latency_seconds", and its value is the bare `float64` quotient
`h.Latency.Val / 1000`: a zero gives the zero of the same sign, a finite value
of the format gives a finite quotient, a finite quotient lies within half a
unit in its last place of the exact quotient (so it is no integer division),
an infinity stays that infinity and a NaN a NaN. -/
theorem latency_seconds_float64 (ns : String) (r : Report Float64) (s : Site Float64)
    (pre : List (Health Float64)) (h : Health Float64) (hsub : h.Subsystem = "www") :
    ∃ bs : List (List (metricExports Float64)),
      (exportSite { Site := descSite ns } r { s with Health := pre ++ [h] }).sink =
        (exportSite { Site := descSite ns } r { s with Health := pre }).sink ++ bs ∧
      bs.flatten.filter (fun m => m.Desc = (descSite ns).Latency) =
        [⟨(descSite ns).Latency, .GaugeValue, .float64 (h.Latency.Val / 1000),
          [h.Subsystem, h.Status, s.Name, s.Desc, s.SiteName]⟩] ∧
      (∃ p : String, (descSite ns).Latency.fqName = p ++ "latency_seconds") ∧
      (∀ (sign : Bool) (e : Nat), h.Latency.Val = .finite sign 0 e →
        h.Latency.Val / 1000 = .finite sign 0 0) ∧
      (∀ (sign : Bool) (m e : Nat), h.Latency.Val = .finite sign m e → m < 2 ^ 53 →
        e ≤ 2045 → ∃ m1 e1 : Nat, h.Latency.Val / 1000 = .finite sign m1 e1) ∧
      (∀ (sign : Bool) (m e : Nat) (q : ℚ), h.Latency.Val / 1000 = .finite sign m e →
        h.Latency.Val.toRat = some q →
        ∃ x : ℚ, (Float64.finite sign m e).toRat = some x ∧
          |x - q / 1000| ≤ 2 ^ e / 2 ^ Float64.scale / 2) ∧
      (∀ sign : Bool, h.Latency.Val = .inf sign → h.Latency.Val / 1000 = .inf sign) ∧
      (h.Latency.Val = .nan → h.Latency.Val / 1000 = .nan) := by
  refine ⟨_, exportSite_snoc_sink _ r s pre h, (www_uptime_latency ns s h hsub).2,
    ⟨_, rfl⟩, ?_, ?_, ?_, ?_, ?_⟩
  · intro sign e hv
    rw [hv, div_thousand_zero]
  · intro sign m e hv hm he
    rw [hv]
    exact div_thousand_is_finite sign m e hm he
  · intro sign m e q hres hq
    exact div_thousand_accuracy _ sign m e hres q hq
  · intro sign hv
    rw [hv, div_thousand_special.1]
  · intro hv
    rw [hv, div_thousand_special.2]

/-- Instance of `latency_seconds_float64` on a one-record site: the record is
tagged "www", its raw latency is the `float64` 14, and the one sample with
the Latency descriptor carries the `float64` quotient of 14 by 1000. -/
theorem latency_seconds_float64_witness :
    (sampleHealth64 "www" (Float64.ofNat 14) "14").Subsystem = "www" ∧
      (exportSite sampleCollector emptyReport
          (sampleSite64 [sampleHealth64 "www" (Float64.ofNat 14) "14"])).sink.flatten.filter
          (fun m => m.Desc = sampleCollector.Site.Latency) =
        [⟨sampleCollector.Site.Latency, .GaugeValue, .float64 (Float64.ofNat 14 / 1000),
          ["www", "ok", "default", "Home", "Home (default)"]⟩] := by
  refine ⟨rfl, ?_⟩
  obtain ⟨bs, h1, h2, -⟩ :=
    latency_seconds_float64 "unifi" emptyReport (sampleSite64 []) []
      (sampleHealth64 "www" (Float64.ofNat 14) "14") rfl
  have h1s : (exportSite sampleCollector emptyReport
      (sampleSite64 [sampleHealth64 "www" (Float64.ofNat 14) "14"])).sink = bs := h1
  rw [h1s]
  simp only [sampleCollector, sampleHealth64, sampleSite64] at h2 ⊢
  exact h2

/-- C11, as stated, fails: for a record tagged "www" with raw latency 1001
the Uptime sample carries 1001 and the Latency sample the `float64` quotient
of 1001 by 1000, and a thousand times that quotient is not 1001, neither as a
`float64` product nor as an exact number. -/
theorem uptime_not_thousand_times_latency :
    (sampleHealth64 "www" (Float64.ofNat 1001) "1001").Subsystem = "www" ∧
    (exportSite sampleCollector emptyReport
        (sampleSite64 [sampleHealth64 "www" (Float64.ofNat 1001) "1001"])).sink.flatten.filter
        (fun m => m.Desc = sampleCollector.Site.Uptime) =
      [⟨sampleCollector.Site.Uptime, .GaugeValue, .flexInt ⟨Float64.ofNat 1001, "1001"⟩,
        ["www", "ok", "default", "Home", "Home (default)"]⟩] ∧
    (exportSite sampleCollector emptyReport
        (sampleSite64 [sampleHealth64 "www" (Float64.ofNat 1001) "1001"])).sink.flatten.filter
        (fun m => m.Desc = sampleCollector.Site.Latency) =
      [⟨sampleCollector.Site.Latency, .GaugeValue,
        .float64 (.finite false 0x1004189374BC6A 1022),
        ["www", "ok", "default", "Home", "Home (default)"]⟩] ∧
    (1000 : Float64) * Float64.finite false 0x1004189374BC6A 1022 ≠ Float64.ofNat 1001 ∧
    (Float64.ofNat 1001).toRat = some 1001 ∧
    ∀ x : ℚ, (Float64.finite false 0x1004189374BC6A 1022).toRat = some x →
      1000 * x ≠ 1001 := by
  have hs : (exportSite sampleCollector emptyReport
      (sampleSite64 [sampleHealth64 "www" (Float64.ofNat 1001) "1001"])).sink =
      healthBatches { Site := descSite "unifi" }
        [(sampleSite64 []).Name, (sampleSite64 []).Desc, (sampleSite64 []).SiteName]
        (sampleHealth64 "www" (Float64.ofNat 1001) "1001") := rfl
  refine ⟨rfl, ?_, ?_, ?_, ?_, ?_⟩
  · rw [hs]
    refine ((www_uptime_latency "unifi" (sampleSite64 []) _ rfl).1).trans ?_
    simp only [sampleHealth64, sampleSite64, sampleCollector]
  · rw [hs]
    refine ((www_uptime_latency "unifi" (sampleSite64 []) _ rfl).2).trans ?_
    simp only [sampleHealth64, sampleSite64, sampleCollector, div_1001_thousand.1]
  · rw [div_1001_thousand.2.1, div_1001_thousand.2.2]
    decide
  · rw [div_1001_thousand.2.2]
    simp only [Float64.toRat, Float64.scale]
    norm_num
  · intro x hx
    set_option exponentiation.threshold 4096 in
    simp only [Float64.toRat, Float64.scale, Option.some.injEq] at hx
    subst hx
    norm_num

/-- C11, amended: with the descriptors built by `descSite ns`, for a record
tagged "www" exactly one sample is sent with the Uptime descriptor, whose name
ends in "uptime_seconds", and it carries the record's whole Latency field, as
it is; the one sample sent with the Latency descriptor for the same record
carries the `float64` quotient of that same number by 1000, so that a thousand
times a finite latency value is the uptime value up to a thousand times half a
unit in the last place of the latency value. -/
theorem uptime_seconds_float64 (ns : String) (r : Report Float64) (s : Site Float64)
    (pre : List (Health Float64)) (h : Health Float64) (hsub : h.Subsystem = "www") :
    ∃ bs : List (List (metricExports Float64)),
      (exportSite { Site := descSite ns } r { s with Health := pre ++ [h] }).sink =
        (exportSite { Site := descSite ns } r { s with Health := pre }).sink ++ bs ∧
      ∃ up lat : metricExports Float64,
        bs.flatten.filter (fun m => m.Desc = (descSite ns).Uptime) = [up] ∧
        bs.flatten.filter (fun m => m.Desc = (descSite ns).Latency) = [lat] ∧
        up = ⟨(descSite ns).Uptime, .GaugeValue, .flexInt h.Latency,
          [h.Subsystem, h.Status, s.Name, s.Desc, s.SiteName]⟩ ∧
        (∃ p : String, (descSite ns).Uptime.fqName = p ++ "uptime_seconds") ∧
        up.Value.num = h.Latency.Val ∧
        lat.Value.num = up.Value.num / 1000 ∧
        (∀ (sign : Bool) (m e : Nat) (q : ℚ), lat.Value.num = .finite sign m e →
          up.Value.num.toRat = some q →
          ∃ x : ℚ, (Float64.finite sign m e).toRat = some x ∧
            |1000 * x - q| ≤ 1000 * (2 ^ e / 2 ^ Float64.scale / 2)) := by
  refine ⟨_, exportSite_snoc_sink _ r s pre h, _, _, (www_uptime_latency ns s h hsub).1,
    (www_uptime_latency ns s h hsub).2, rfl, ⟨_, rfl⟩, rfl, rfl, ?_⟩
  intro sign m e q hres hq
  obtain ⟨x, hx, hb⟩ := div_thousand_accuracy h.Latency.Val sign m e hres q hq
  refine ⟨x, hx, ?_⟩
  have hfac : 1000 * x - q = 1000 * (x - q / 1000) := by ring
  rw [hfac, abs_mul, abs_of_pos (by norm_num : (0 : ℚ) < 1000)]
  exact mul_le_mul_of_nonneg_left hb (by norm_num)

/-- Instance of `uptime_seconds_float64` on a one-record site: the record is
tagged "www", its Latency field is the `float64` 1001 (text "1001"), and the
one sample with the Uptime descriptor carries that field. -/
theorem uptime_seconds_float64_witness :
    (sampleHealth64 "www" (Float64.ofNat 1001) "1001").Subsystem = "www" ∧
      (exportSite sampleCollector emptyReport
          (sampleSite64
            [sampleHealth64 "www" (Float64.ofNat 1001) "1001"])).sink.flatten.filter
          (fun m => m.Desc = sampleCollector.Site.Uptime) =
        [⟨sampleCollector.Site.Uptime, .GaugeValue, .flexInt ⟨Float64.ofNat 1001, "1001"⟩,
          ["www", "ok", "default", "Home", "Home (default)"]⟩] := by
  refine ⟨rfl, ?_⟩
  obtain ⟨bs, h1, up, lat, hup, -, hval, -⟩ :=
    uptime_seconds_float64 "unifi" emptyReport (sampleSite64 []) []
      (sampleHealth64 "www" (Float64.ofNat 1001) "1001") rfl
  have h1s : (exportSite sampleCollector emptyReport
      (sampleSite64 [sampleHealth64 "www" (Float64.ofNat 1001) "1001"])).sink = bs := h1
  rw [h1s]
  simp only [sampleCollector, sampleHealth64, sampleSite64] at hup hval ⊢
  rw [hup, hval]

/-- C12: for every namespace `ns`, `descSite ns` names each of its 25
descriptors `P ++ metric`, where `P` is `ns ++ "_site_"` when `ns` is not empty
and "site_" when it is, and `metric` is the fixed name of the field. -/
theorem descSite_names (ns : String) :
    ∃ P : String, P = (if ns = "" then "site_" else ns ++ "_site_") ∧
      (descSite ns).NumUser.fqName = P ++ "num_user" ∧
      (descSite ns).NumGuest.fqName = P ++ "num_guest" ∧
      (descSite ns).NumIot.fqName = P ++ "num_iot" ∧
      (descSite ns).TxBytesR.fqName = P ++ "transmit_rate_bytes" ∧
      (descSite ns).RxBytesR.fqName = P ++ "receive_rate_bytes" ∧
      (descSite ns).NumAp.fqName = P ++ "num_ap" ∧
      (descSite ns).NumAdopted.fqName = P ++ "num_adopted" ∧
      (descSite ns).NumDisabled.fqName = P ++ "num_disabled" ∧
      (descSite ns).NumDisconnected.fqName = P ++ "num_disconnected" ∧
      (descSite ns).NumPending.fqName = P ++ "num_pending" ∧
      (descSite ns).NumGw.fqName = P ++ "num_gateways" ∧
      (descSite ns).NumSw.fqName = P ++ "num_switches" ∧
      (descSite ns).NumSta.fqName = P ++ "num_stations" ∧
      (descSite ns).Latency.fqName = P ++ "latency_seconds" ∧
      (descSite ns).Drops.fqName = P ++ "intenet_drops_total" ∧
      (descSite ns).Uptime.fqName = P ++ "uptime_seconds" ∧
      (descSite ns).XputUp.fqName = P ++ "xput_up_rate" ∧
      (descSite ns).XputDown.fqName = P ++ "xput_down_rate" ∧
      (descSite ns).SpeedtestPing.fqName = P ++ "speedtest_ping" ∧
      (descSite ns).RemoteUserNumActive.fqName = P ++ "num_remote_user_active" ∧
      (descSite ns).RemoteUserNumInactive.fqName = P ++ "num_remote_user_inactive" ∧
      (descSite ns).RemoteUserRxBytes.fqName = P ++ "remote_user_receive_bytes_total" ∧
      (descSite ns).RemoteUserTxBytes.fqName = P ++ "remote_user_transmit_bytes_total" ∧
      (descSite ns).RemoteUserRxPackets.fqName = P ++ "remote_user_receive_packets_total" ∧
      (descSite ns).RemoteUserTxPackets.fqName = P ++ "remote_user_transmit_packets_total" := by
  refine ⟨_, rfl, ?_⟩
  simp only [descSite, NewDesc, descSite_stem, and_self]

/-- C13, as stated, fails: under the empty namespace the descriptor of the
user count is named "site_num_user", which is not "site" ++ "_site_" ++ metric
for any metric at all. -/
theorem empty_namespace_name :
    (descSite "").NumUser.fqName = "site_num_user" ∧
      ¬ ∃ metric : String, (descSite "").NumUser.fqName = "site" ++ "_site_" ++ metric := by
  have hname : (descSite "").NumUser.fqName = "site_num_user" := by
    simp only [descSite, NewDesc, descSite_stem]
    rfl
  refine ⟨hname, ?_⟩
  rintro ⟨metric, hm⟩
  rw [hname] at hm
  have hd := congrArg String.data hm
  simp only [String.data_append] at hd
  have h5 := congrArg (fun l => l.get? 5) hd
  simp at h5

/-- C13, amended: for every namespace `ns`, every descriptor built by
`descSite ns` has a name of the form `P ++ "site_" ++ metric`, where `P` is
`ns ++ "_"` when `ns` is not empty and the empty string when it is, and
`metric` is one of the 25 fixed metric names. -/
theorem descSite_name_form (ns : String) :
    ∀ d ∈ (descSite ns).all,
      ∃ metric ∈ [
          "num_user", "num_guest", "num_iot", "transmit_rate_bytes",
          "receive_rate_bytes", "num_ap", "num_adopted", "num_disabled",
          "num_disconnected", "num_pending", "num_gateways", "num_switches",
          "num_stations", "latency_seconds", "intenet_drops_total",
          "uptime_seconds", "xput_up_rate", "xput_down_rate", "speedtest_ping",
          "num_remote_user_active", "num_remote_user_inactive",
          "remote_user_receive_bytes_total", "remote_user_transmit_bytes_total",
          "remote_user_receive_packets_total", "remote_user_transmit_packets_total"],
        d.fqName = (if ns = "" then "" else ns ++ "_") ++ "site_" ++ metric := by
  have hstem : (if ns ++ "_site_" = "_site_" then "site_" else ns ++ "_site_") =
      (if ns = "" then "" else ns ++ "_") ++ "site_" := by
    rw [descSite_stem]
    split_ifs
    · rfl
    · exact String.ext (by simp [String.data_append])
  simp only [descSite, NewDesc, site.all, hstem]
  simp

/-- Instance of `descSite_name_form` under the namespace "unifi": the Latency
descriptor is one of the 25 and its name is "unifi_" ++ "site_" ++ metric for
one of the metric names. -/
theorem descSite_name_form_witness :
    (descSite "unifi").Latency ∈ (descSite "unifi").all ∧
      ∃ metric : String,
        (descSite "unifi").Latency.fqName = "unifi" ++ "_" ++ "site_" ++ metric := by
  have hmem : (descSite "unifi").Latency ∈ (descSite "unifi").all := by
    simp [site.all]
  obtain ⟨metric, -, hname⟩ := descSite_name_form "unifi" _ hmem
  refine ⟨hmem, metric, ?_⟩
  rw [hname, if_neg (by decide)]

/-- C14: for every namespace `ns`, `descSite ns` builds 25 descriptors and
each of them declares the label names [subsystem, status, name, desc,
site_name], in that order. -/
theorem descSite_label_names (ns : String) :
    (descSite ns).all.length = 25 ∧
      ∀ d ∈ (descSite ns).all,
        d.variableLabels = ["subsystem", "status", "name", "desc", "site_name"] := by
  refine ⟨rfl, ?_⟩
  simp [descSite, NewDesc, site.all]

/-- C15: for a report whose metrics are absent, or present with no site,
`exportSites` returns the report as it was and starts no goroutine: the sink
and the wait group are unchanged, also once everything started has run. -/
theorem exportSites_noop (u : unifiCollector) (r : Report F)
    (hr : r.Metrics = none ∨ ∃ m, r.Metrics = some m ∧ m.Sites = []) :
    (exportSites u r).1 = r ∧ (exportSites u r).2 = [] ∧
      (completed (exportSites u r)).sink = r.sink ∧
      (completed (exportSites u r)).wg = r.wg := by
  have hres : exportSites u r = (r, []) := by
    rcases hr with hnone | ⟨m, hm, hsites⟩
    · simp [exportSites, hnone]
    · simp [exportSites, hm, hsites]
  simp [hres, completed]

/-- Instances of `exportSites_noop` over `ℚ`: a report without metrics and a
report whose metrics hold no site both come back unchanged, with no goroutine
started. -/
theorem exportSites_noop_witness :
    (sampleReport.Metrics = none ∧
      (exportSites sampleCollector sampleReport).1 = sampleReport ∧
      (exportSites sampleCollector sampleReport).2 = []) ∧
    ((sampleReportWith []).Metrics = some { Sites := [] } ∧
      (exportSites sampleCollector (sampleReportWith [])).1 = sampleReportWith [] ∧
      (exportSites sampleCollector (sampleReportWith [])).2 = []) :=
  ⟨⟨rfl, (exportSites_noop sampleCollector sampleReport (Or.inl rfl)).1,
      (exportSites_noop sampleCollector sampleReport (Or.inl rfl)).2.1⟩,
    ⟨rfl, (exportSites_noop sampleCollector (sampleReportWith [])
        (Or.inr ⟨_, rfl, rfl⟩)).1,
      (exportSites_noop sampleCollector (sampleReportWith [])
        (Or.inr ⟨_, rfl, rfl⟩)).2.1⟩⟩

/-- C16: for a report with at least one site, once the work started by
`exportSites` has run, the sink holds, after what it held before, the batches
of every record of every site, each exactly once, a record's batches being
what `exportSite` sends for that record alone; hence the multiset of samples
written is the sum of the records' samples, and a site without records adds
nothing. -/
theorem exportSites_samples (u : unifiCollector) (r : Report F) (m : Metrics F)
    (hm : r.Metrics = some m) (hN : 1 ≤ m.Sites.length) :
    (completed (exportSites u r)).sink =
      r.sink ++ m.Sites.flatMap (fun s => s.Health.flatMap
        (fun h => (exportSite u emptyReport { s with Health := [h] }).sink)) ∧
    ((completed (exportSites u r)).sink.flatten : Multiset (metricExports F)) =
      (r.sink.flatten : Multiset (metricExports F)) +
        (m.Sites.map (fun s => (s.Health.map (fun h =>
          ((exportSite u emptyReport { s with Health := [h] }).sink.flatten :
            Multiset (metricExports F)))).sum)).sum ∧
    (∀ s ∈ m.Sites, s.Health = [] → ∀ r0 : Report F, (exportSite u r0 s).sink = r0.sink) := by
  have hlt : ¬ m.Sites.length < 1 := by omega
  have hsink : (completed (exportSites u r)).sink =
      r.sink ++ m.Sites.flatMap (fun s => s.Health.flatMap
        (fun h => (exportSite u emptyReport { s with Health := [h] }).sink)) := by
    simp only [exportSites, hm, hlt, if_false, completed, List.foldl_cons, List.foldl_nil]
    exact foldl_exportSite_sink u m.Sites _
  refine ⟨hsink, ?_, ?_⟩
  · rw [hsink, List.flatten_append, ← Multiset.coe_add]
    congr 1
    induction m.Sites with
    | nil => simp
    | cons s t ih =>
      rw [List.flatMap_cons, List.flatten_append, ← Multiset.coe_add, ih, List.map_cons,
        List.sum_cons]
      congr 1
      induction s.Health with
      | nil => simp
      | cons h t2 ih2 =>
        rw [List.flatMap_cons, List.flatten_append, ← Multiset.coe_add, ih2, List.map_cons,
          List.sum_cons]
  · intro s _ hs r0
    simp [exportSite, hs]

/-- Instance of `exportSites_samples` over `ℚ`: three sites, the first with a
"lan" and a "vpn" record, the second with none, the third with a "www" record;
the sink ends with the batches of sizes 2, 3, 3, 1 (lan), 6 (vpn), 2, 6 (www). -/
theorem exportSites_samples_witness :
    (sampleReportWith [sampleSite [sampleHealth "lan", sampleHealth "vpn"], sampleSite [],
        sampleSite [sampleHealth "www"]]).Metrics =
      some { Sites := [sampleSite [sampleHealth "lan", sampleHealth "vpn"], sampleSite [],
        sampleSite [sampleHealth "www"]] } ∧
    (completed (exportSites sampleCollector
      (sampleReportWith [sampleSite [sampleHealth "lan", sampleHealth "vpn"], sampleSite [],
        sampleSite [sampleHealth "www"]]))).sink.map List.length = [2, 3, 3, 1, 6, 2, 6] := by
  refine ⟨rfl, ?_⟩
  rw [(exportSites_samples sampleCollector
    (sampleReportWith [sampleSite [sampleHealth "lan", sampleHealth "vpn"], sampleSite [],
      sampleSite [sampleHealth "www"]]) _ rfl (by decide)).1]
  rfl

/-- C17, as stated, fails: for a report with two sites `exportSites` starts
one goroutine, not two, and adds 1 to the wait group, not 2. -/
theorem two_sites_one_goroutine :
    (sampleReportWith [sampleSite [sampleHealth "lan"], sampleSite [sampleHealth "wan"]]).Metrics
      = some { Sites := [sampleSite [sampleHealth "lan"], sampleSite [sampleHealth "wan"]] } ∧
    (exportSites sampleCollector (sampleReportWith
      [sampleSite [sampleHealth "lan"], sampleSite [sampleHealth "wan"]])).2.length = 1 ∧
    (exportSites sampleCollector (sampleReportWith
      [sampleSite [sampleHealth "lan"], sampleSite [sampleHealth "wan"]])).2.length ≠ 2 ∧
    (exportSites sampleCollector (sampleReportWith
      [sampleSite [sampleHealth "lan"], sampleSite [sampleHealth "wan"]])).1.wg =
      (sampleReportWith
        [sampleSite [sampleHealth "lan"], sampleSite [sampleHealth "wan"]]).wg + 1 ∧
    (exportSites sampleCollector (sampleReportWith
      [sampleSite [sampleHealth "lan"], sampleSite [sampleHealth "wan"]])).1.wg ≠
      (sampleReportWith
        [sampleSite [sampleHealth "lan"], sampleSite [sampleHealth "wan"]]).wg + 2 := by
  refine ⟨rfl, rfl, ?_, rfl, ?_⟩
  · simp [exportSites, sampleReportWith]
  · simp [exportSites, sampleReportWith]

/-- C17, amended: for a report with N >= 1 sites `exportSites` starts exactly
one goroutine and adds exactly 1 to the wait group, whatever N is; it sends
nothing itself, and the one goroutine walks all the sites in their order, one
`exportSite` after the other, then takes 1 off the wait group. -/
theorem exportSites_one_goroutine (u : unifiCollector) (r : Report F) (m : Metrics F)
    (hm : r.Metrics = some m) (hN : 1 ≤ m.Sites.length) :
    (exportSites u r).2.length = 1 ∧
      (exportSites u r).1.wg = r.wg + 1 ∧
      (exportSites u r).1.sink = r.sink ∧
      (∀ g ∈ (exportSites u r).2, ∀ r0 : Report F,
        g r0 = { m.Sites.foldl (exportSite u) r0 with
          wg := (m.Sites.foldl (exportSite u) r0).wg - 1 }) ∧
      (completed (exportSites u r)).wg = (m.Sites.foldl (exportSite u) r).wg := by
  have hlt : ¬ m.Sites.length < 1 := by omega
  have hwg : ∀ (sites : List (Site F)) (r0 : Report F),
      (sites.foldl (exportSite u) r0).wg = r0.wg := by
    intro sites
    induction sites with
    | nil => intro r0; rfl
    | cons s t ih =>
      intro r0
      rw [List.foldl_cons, ih, exportSite_wg]
  refine ⟨?_, ?_, ?_, ?_, ?_⟩
  · simp [exportSites, hm, hlt]
  · simp [exportSites, hm, hlt]
  · simp [exportSites, hm, hlt]
  · simp [exportSites, hm, hlt]
  · simp [exportSites, hm, hlt, completed, hwg]

/-- Instance of `exportSites_one_goroutine` over `ℚ` on a report with two
sites: one goroutine, wait group 0 + 1. -/
theorem exportSites_one_goroutine_witness :
    (sampleReportWith [sampleSite [sampleHealth "lan"], sampleSite [sampleHealth "wan"]]).Metrics
      = some { Sites := [sampleSite [sampleHealth "lan"], sampleSite [sampleHealth "wan"]] } ∧
    (exportSites sampleCollector (sampleReportWith
      [sampleSite [sampleHealth "lan"], sampleSite [sampleHealth "wan"]])).2.length = 1 ∧
    (exportSites sampleCollector (sampleReportWith
      [sampleSite [sampleHealth "lan"], sampleSite [sampleHealth "wan"]])).1.wg = 0 + 1 :=
  ⟨rfl,
    (exportSites_one_goroutine sampleCollector (sampleReportWith
      [sampleSite [sampleHealth "lan"], sampleSite [sampleHealth "wan"]]) _ rfl
      (by decide)).1,
    (exportSites_one_goroutine sampleCollector (sampleReportWith
      [sampleSite [sampleHealth "lan"], sampleSite [sampleHealth "wan"]]) _ rfl
      (by decide)).2.1⟩

/-- C18: with the descriptors built by `descSite ns`, for a record with any
tag, every sample sent for it whose descriptor is neither Uptime nor Latency
pairs a descriptor with the record field of the same name, passed as it is:
descriptor and value together are one row of the table below.  The 25
descriptors are pairwise different, so a descriptor stands in one row only and
is never paired with another metric's field. -/
theorem value_is_own_field (ns : String) (r : Report F) (s : Site F)
    (pre : List (Health F)) (h : Health F) :
    ∃ bs : List (List (metricExports F)),
      (exportSite { Site := descSite ns } r { s with Health := pre ++ [h] }).sink =
        (exportSite { Site := descSite ns } r { s with Health := pre }).sink ++ bs ∧
      bs ≠ [] ∧
      (∀ m ∈ bs.flatten, m.Desc ≠ (descSite ns).Uptime → m.Desc ≠ (descSite ns).Latency →
        (m.Desc, m.Value) ∈ ([
          ((descSite ns).TxBytesR, .flexInt h.TxBytesR),
          ((descSite ns).RxBytesR, .flexInt h.RxBytesR),
          ((descSite ns).NumUser, .flexInt h.NumUser),
          ((descSite ns).NumGuest, .flexInt h.NumGuest),
          ((descSite ns).NumIot, .flexInt h.NumIot),
          ((descSite ns).NumAp, .flexInt h.NumAp),
          ((descSite ns).NumDisabled, .flexInt h.NumDisabled),
          ((descSite ns).NumAdopted, .flexInt h.NumAdopted),
          ((descSite ns).NumDisconnected, .flexInt h.NumDisconnected),
          ((descSite ns).NumPending, .flexInt h.NumPending),
          ((descSite ns).NumGw, .flexInt h.NumGw),
          ((descSite ns).NumSw, .flexInt h.NumSw),
          ((descSite ns).NumSta, .flexInt h.NumSta),
          ((descSite ns).XputUp, .flexInt h.XputUp),
          ((descSite ns).XputDown, .flexInt h.XputDown),
          ((descSite ns).SpeedtestPing, .flexInt h.SpeedtestPing),
          ((descSite ns).Drops, .flexInt h.Drops),
          ((descSite ns).RemoteUserNumActive, .flexInt h.RemoteUserNumActive),
          ((descSite ns).RemoteUserNumInactive, .flexInt h.RemoteUserNumInactive),
          ((descSite ns).RemoteUserRxBytes, .flexInt h.RemoteUserRxBytes),
          ((descSite ns).RemoteUserTxBytes, .flexInt h.RemoteUserTxBytes),
          ((descSite ns).RemoteUserRxPackets, .flexInt h.RemoteUserRxPackets),
          ((descSite ns).RemoteUserTxPackets, .flexInt h.RemoteUserTxPackets)] :
          List (Desc × Value F))) ∧
      (descSite ns).all.Nodup := by
  refine ⟨_, exportSite_snoc_sink _ r s pre h, healthBatches_ne_nil _ _ h, ?_, ?_⟩
  swap
  · simp [site.all, descSite, NewDesc, string_append_right_inj]
  by_cases h1 : h.Subsystem = "vpn"
  · simp [healthBatches, exportHealth, Report.send, h1, descSite, NewDesc,
      string_append_right_inj, subsystemLAN, subsystemVPN, subsystemWWW, subsystemWLAN,
      subsystemWAN]
  by_cases h2 : h.Subsystem = "www"
  · simp [healthBatches, exportHealth, Report.send, h2, descSite, NewDesc,
      string_append_right_inj, subsystemLAN, subsystemVPN, subsystemWWW, subsystemWLAN,
      subsystemWAN]
  by_cases h3 : h.Subsystem = "lan"
  · simp [healthBatches, exportHealth, Report.send, h3, descSite, NewDesc,
      string_append_right_inj, subsystemLAN, subsystemVPN, subsystemWWW, subsystemWLAN,
      subsystemWAN]
  by_cases h4 : h.Subsystem = "wlan"
  · simp [healthBatches, exportHealth, Report.send, h4, descSite, NewDesc,
      string_append_right_inj, subsystemLAN, subsystemVPN, subsystemWWW, subsystemWLAN,
      subsystemWAN]
  by_cases h5 : h.Subsystem = "wan"
  · simp [healthBatches, exportHealth, Report.send, h5, descSite, NewDesc,
      string_append_right_inj, subsystemLAN, subsystemVPN, subsystemWWW, subsystemWLAN,
      subsystemWAN]
  simp [healthBatches, exportHealth, Report.send, h1, h2, h3, h4, h5, descSite, NewDesc,
    string_append_right_inj, subsystemLAN, subsystemVPN, subsystemWWW, subsystemWLAN,
    subsystemWAN]

/-- C19: with the descriptors built by `descSite ns`, for a record with any
tag, a sample sent for it has value kind counter if and only if the name of
its descriptor ends in "_total", and the name of the descriptor of a gauge
sample does not end in "_total". -/
theorem counter_iff_total (ns : String) (r : Report F) (s : Site F)
    (pre : List (Health F)) (h : Health F) :
    ∃ bs : List (List (metricExports F)),
      (exportSite { Site := descSite ns } r { s with Health := pre ++ [h] }).sink =
        (exportSite { Site := descSite ns } r { s with Health := pre }).sink ++ bs ∧
      bs ≠ [] ∧
      ∀ m ∈ bs.flatten,
        (m.ValueType = .CounterValue ↔ ∃ q : String, m.Desc.fqName = q ++ "_total") ∧
        (m.ValueType = .GaugeValue → ¬ ∃ q : String, m.Desc.fqName = q ++ "_total") := by
  refine ⟨_, exportSite_snoc_sink _ r s pre h, healthBatches_ne_nil _ _ h, ?_⟩
  by_cases h1 : h.Subsystem = "vpn"
  · simp (disch := decide) [healthBatches, exportHealth, Report.send, h1, descSite, NewDesc,
      string_append_right_inj, subsystemLAN, subsystemVPN, subsystemWWW, subsystemWLAN,
      subsystemWAN, ends_total_of, not_ends_total_of,
      forall_not_ends_total_of]
  by_cases h2 : h.Subsystem = "www"
  · simp (disch := decide) [healthBatches, exportHealth, Report.send, h2, descSite, NewDesc,
      string_append_right_inj, subsystemLAN, subsystemVPN, subsystemWWW, subsystemWLAN,
      subsystemWAN, ends_total_of, not_ends_total_of,
      forall_not_ends_total_of]
  by_cases h3 : h.Subsystem = "lan"
  · simp (disch := decide) [healthBatches, exportHealth, Report.send, h3, descSite, NewDesc,
      string_append_right_inj, subsystemLAN, subsystemVPN, subsystemWWW, subsystemWLAN,
      subsystemWAN, ends_total_of, not_ends_total_of,
      forall_not_ends_total_of]
  by_cases h4 : h.Subsystem = "wlan"
  · simp (disch := decide) [healthBatches, exportHealth, Report.send, h4, descSite, NewDesc,
      string_append_right_inj, subsystemLAN, subsystemVPN, subsystemWWW, subsystemWLAN,
      subsystemWAN, ends_total_of, not_ends_total_of,
      forall_not_ends_total_of]
  by_cases h5 : h.Subsystem = "wan"
  · simp (disch := decide) [healthBatches, exportHealth, Report.send, h5, descSite, NewDesc,
      string_append_right_inj, subsystemLAN, subsystemVPN, subsystemWWW, subsystemWLAN,
      subsystemWAN, ends_total_of, not_ends_total_of,
      forall_not_ends_total_of]
  simp (disch := decide) [healthBatches, exportHealth, Report.send, h1, h2, h3, h4, h5, descSite, NewDesc,
    string_append_right_inj, subsystemLAN, subsystemVPN, subsystemWWW, subsystemWLAN,
    subsystemWAN, ends_total_of, not_ends_total_of,
      forall_not_ends_total_of]

/-- C20: with the descriptors built by `descSite ns`, for a record with any
tag, the samples sent for that record have pairwise different descriptor
names, hence pairwise different pairs of name and label values. -/
theorem names_distinct (ns : String) (r : Report F) (s : Site F)
    (pre : List (Health F)) (h : Health F) :
    ∃ bs : List (List (metricExports F)),
      (exportSite { Site := descSite ns } r { s with Health := pre ++ [h] }).sink =
        (exportSite { Site := descSite ns } r { s with Health := pre }).sink ++ bs ∧
      bs ≠ [] ∧
      (bs.flatten.map (fun m => m.Desc.fqName)).Nodup ∧
      (bs.flatten.map (fun m => (m.Desc.fqName, m.Labels))).Nodup := by
  refine ⟨_, exportSite_snoc_sink _ r s pre h, healthBatches_ne_nil _ _ h, ?_⟩
  by_cases h1 : h.Subsystem = "vpn"
  · simp [healthBatches, exportHealth, Report.send, h1, descSite, NewDesc,
      string_append_right_inj, subsystemLAN, subsystemVPN, subsystemWWW, subsystemWLAN,
      subsystemWAN]
  by_cases h2 : h.Subsystem = "www"
  · simp [healthBatches, exportHealth, Report.send, h2, descSite, NewDesc,
      string_append_right_inj, subsystemLAN, subsystemVPN, subsystemWWW, subsystemWLAN,
      subsystemWAN]
  by_cases h3 : h.Subsystem = "lan"
  · simp [healthBatches, exportHealth, Report.send, h3, descSite, NewDesc,
      string_append_right_inj, subsystemLAN, subsystemVPN, subsystemWWW, subsystemWLAN,
      subsystemWAN]
  by_cases h4 : h.Subsystem = "wlan"
  · simp [healthBatches, exportHealth, Report.send, h4, descSite, NewDesc,
      string_append_right_inj, subsystemLAN, subsystemVPN, subsystemWWW, subsystemWLAN,
      subsystemWAN]
  by_cases h5 : h.Subsystem = "wan"
  · simp [healthBatches, exportHealth, Report.send, h5, descSite, NewDesc,
      string_append_right_inj, subsystemLAN, subsystemVPN, subsystemWWW, subsystemWLAN,
      subsystemWAN]
  simp [healthBatches, exportHealth, Report.send, h1, h2, h3, h4, h5, descSite, NewDesc,
    string_append_right_inj, subsystemLAN, subsystemVPN, subsystemWWW, subsystemWLAN,
    subsystemWAN]

end Properties

end Promunifi
